import Mathlib

/-!
Shallow embedding of the EDIFACT PRODCAT generator (AScotM/edifact_prodcat).

The repository contains three Python versions of the same generator.  The
embedding below follows `src/version3/prodcat3.py` (the claims' primary
source) and, where a claim also cites it, `src/version1/prodcat.py`.
Python strings are modelled as `List Char`; the per-run mutable
`segment_count` is threaded explicitly; fallible construction returns
`Option`.  OS concerns (file existence checks, I/O faults, logging) are
out of scope per the specification and are not modelled; the "sink" is the
list of segment lines a run writes.
-/

/-- Python strings are modelled as lists of characters. -/
abbrev Str := List Char

/-- The segment terminator character (an apostrophe). -/
def terminatorChar : Char := Char.ofNat 39

/-- The component (composite sub-element) delimiter `:`. -/
def componentDelim : Char := ':'

/-- The data-element delimiter `+`. -/
def dataDelim : Char := '+'

/-- The decimal notation character `.`. -/
def decimalDelim : Char := '.'

/-- The release (escape) character `?`. -/
def escapeChar : Char := '?'

/-- `CONFIG['delimiters'].values()` in iteration (insertion) order:
component, data, decimal, escape, terminator. -/
def delimiterList : List Char :=
  [componentDelim, dataDelim, decimalDelim, escapeChar, terminatorChar]

/-- `data.replace(c, escape + c)` for a single-character pattern `c`:
every occurrence of `c` is replaced by the release character followed
by `c`. -/
def replaceChar (c : Char) (s : Str) : Str :=
  s.flatMap (fun x => if x = c then [escapeChar, c] else [x])

/-- `_escape_data` (identical in version1 line 126 and version3 line 262):
five sequential whole-string substitutions, one per delimiter, in the
config dictionary's iteration order. -/
def escape_data (s : Str) : Str :=
  delimiterList.foldl (fun acc c => replaceChar c acc) s

/-- Modelled from the spec: the repository ships no unescape routine; the
spec (section 4.1) defines `unescape` as the exact left inverse of the
single-pass escaper, i.e. a left-to-right scan in which a release
character causes the following character to be taken literally. -/
def unescape : Str → Str
  | [] => []
  | c :: rest =>
    if c = escapeChar then
      match rest with
      | [] => []
      | d :: rest2 => d :: unescape rest2
    else c :: unescape rest

/-- Modelled from the spec (section 4.1): the mandated escaper inserts the
release character immediately before each control character in one
left-to-right pass over the original string. -/
def escape_single_pass (s : Str) : Str :=
  s.flatMap (fun c => if c ∈ delimiterList then [escapeChar, c] else [c])

/-- One data element of a segment: a scalar string, a composite list of
optional sub-scalars (Python `list` possibly containing `None`), or an
absent element (Python `None`). -/
inductive Element where
  | scalar : Str → Element
  | composite : List (Option Str) → Element
  | absent : Element
deriving DecidableEq

/-- `str.join` over already-rendered parts: first part, then for each
further part the separator followed by the part. -/
def joinParts (sep : Char) : List Str → Str
  | [] => []
  | p :: rest => p ++ rest.flatMap (fun q => sep :: q)

/-- How `_format_segment` renders one element into its textual position:
a composite drops `None` sub-scalars, escapes the rest and joins them
with the component delimiter; a scalar is escaped; `None` becomes the
empty position. -/
def renderElement : Element → Str
  | .scalar s => escape_data s
  | .composite cs => joinParts componentDelim ((cs.filterMap id).map escape_data)
  | .absent => []

/-- The `while len(segment_parts) > 1 and segment_parts[-1] == ""` loop:
the leading tag is kept and trailing empty positions of the remaining
parts are removed. -/
def trimSegmentParts : List Str → List Str
  | [] => []
  | t :: rest => t :: (rest.reverse.dropWhile (fun p => p.isEmpty)).reverse

/-- The text produced by `_format_segment` (identical in version1 line 102
and version3 line 238): tag and rendered elements, trailing empties
trimmed, joined with the data delimiter and closed by the terminator. -/
def renderSegment (tag : Str) (elements : List Element) : Str :=
  joinParts dataDelim (trimSegmentParts (tag :: elements.map renderElement)) ++ [terminatorChar]

/-- `_format_segment` with its side effect: it also increments the running
segment counter by exactly one. -/
def format_segment (tag : Str) (elements : List Element) (c : Nat) : Str × Nat :=
  (renderSegment tag elements, c + 1)

/-- `str.strip()` (whitespace model: ASCII whitespace, which covers every
value this repository manipulates). -/
def stripStr (s : Str) : Str :=
  ((s.dropWhile Char.isWhitespace).reverse.dropWhile Char.isWhitespace).reverse

/-- `str.upper()` (ASCII model, matching the identifier grammar's
character set). -/
def upperStr (s : Str) : Str := s.map Char.toUpper

/-- `sanitize_value`: strip, and optionally uppercase. -/
def sanitize_value (s : Str) (uppercase : Bool) : Str :=
  if uppercase then upperStr (stripStr s) else stripStr s

/-- One character of the identifier grammar `[A-Z0-9\-. ]`. -/
def isIdChar (c : Char) : Bool :=
  (decide ('A' ≤ c) && decide (c ≤ 'Z')) || (decide ('0' ≤ c) && decide (c ≤ '9')) ||
    c = '-' || c = '.' || c = Char.ofNat 32

/-- The anchored identifier pattern `^[A-Z0-9\-. ]{1,35}$`. -/
def idOk (s : Str) : Bool :=
  decide (1 ≤ s.length) && decide (s.length ≤ 35) && s.all isIdChar

/-- `validate_id`: sanitize (strip + uppercase), then require the
identifier grammar; on violation the Python code raises `ValueError`,
modelled as `none`. -/
def validate_id (s : Str) : Option Str :=
  let t := sanitize_value s true
  if idOk t then some t else none

/-- The per-run context produced by `__init__`: normalized sender and
receiver, message reference and interchange control reference (the
timestamp-derived defaults are modelled as explicit parameters). -/
structure Ctx where
  sender : Str
  receiver : Str
  message_ref : Str
  icr : Str
deriving DecidableEq

/-- `__init__`: validates the sender then the receiver identifier, storing
the normalized forms; a grammar violation raises before anything else
happens (no record is processed, no output produced). -/
def construct (senderId receiverId messageRef icr : Str) : Option Ctx :=
  match validate_id senderId with
  | none => none
  | some s =>
    match validate_id receiverId with
    | none => none
    | some r => some ⟨s, r, messageRef, icr⟩

/-- `validate_date_format`: format code 102 demands 8 digits, 203 demands
6 digits, 102:203 demands 8 digits, a colon and 6 digits; unknown codes
validate trivially. -/
def validate_date_format (dateValue : Str) (formatCode : Str) : Bool :=
  if formatCode = "102".data then
    decide (dateValue.length = 8) && dateValue.all Char.isDigit
  else if formatCode = "203".data then
    decide (dateValue.length = 6) && dateValue.all Char.isDigit
  else if formatCode = "102:203".data then
    match dateValue.splitOn ':' with
    | [d, t] => decide (d.length = 8) && d.all Char.isDigit &&
        decide (t.length = 6) && t.all Char.isDigit
    | _ => false
  else true

/-- Result of parsing a decimal literal: the sign and the digit characters
(integer and fraction parts concatenated). -/
structure DecParse where
  neg : Bool
  digits : Str
deriving DecidableEq

/-- Python `float()` on plain decimal notation, including the leading and
trailing whitespace `float` itself tolerates: optional sign, then digits
with at most one decimal point and at least one digit.  Exponent,
infinity and nan forms are not used by this repository's data and are
omitted. -/
def pyFloat (s : Str) : Option DecParse :=
  let t := stripStr s
  let (sgn, rest) :=
    match t with
    | '-' :: r => (true, r)
    | '+' :: r => (false, r)
    | r => (false, r)
  let ip := rest.takeWhile Char.isDigit
  let rest2 := rest.dropWhile Char.isDigit
  match rest2 with
  | [] => if ip.isEmpty then none else some ⟨sgn, ip⟩
  | '.' :: r3 =>
    let fp := r3.takeWhile Char.isDigit
    let rest4 := r3.dropWhile Char.isDigit
    if rest4.isEmpty && !(ip.isEmpty && fp.isEmpty) then some ⟨sgn, ip ++ fp⟩ else none
  | _ => none

/-- `value > 0` for a parsed decimal: not negative and some digit nonzero. -/
def decPositive (d : DecParse) : Bool :=
  !d.neg && d.digits.any (fun c => c ≠ '0')

/-- One catalogue record.  Fields are modelled as `Option Str`; Python's
truthiness test (`field not in product or not product[field]`) treats a
missing key and an empty string alike, captured by `optTruthy`. -/
structure Product where
  description : Option Str
  quantity : Option Str
  unit : Option Str
  price : Option Str
  currency : Option Str
  supplier_code : Option Str
  barcode : Option Str
  internal_ref : Option Str
deriving DecidableEq

/-- Python truthiness of an optional string field. -/
def optTruthy : Option Str → Bool
  | some s => !s.isEmpty
  | none => false

/-- The value of a field known to be present. -/
def optVal (o : Option Str) : Str := o.getD []

/-- The configured required fields, in `CONFIG` order. -/
def requiredFieldNames : List Str :=
  ["description".data, "quantity".data, "unit".data, "price".data, "currency".data]

/-- Field access by configuration name, for the required-field loop. -/
def fieldOf (p : Product) (name : Str) : Option Str :=
  if name = "description".data then p.description
  else if name = "quantity".data then p.quantity
  else if name = "unit".data then p.unit
  else if name = "price".data then p.price
  else if name = "currency".data then p.currency
  else none

/-- `", ".join(missing_fields)` for the missing-fields message. -/
def joinCommaSep (l : List Str) : Str :=
  joinParts ',' l |>.flatMap (fun c => if c = ',' then [',', Char.ofNat 32] else [c])

/-- The version3 allowed currencies. -/
def validCurrencies : List Str :=
  ["USD".data, "EUR".data, "GBP".data, "JPY".data, "CAD".data, "AUD".data, "CHF".data, "CNY".data]

/-- The version3 allowed units. -/
def validUnits : List Str :=
  ["PCE".data, "KGM".data, "MTR".data, "LTR".data, "MTK".data, "MTQ".data, "CMT".data]

/-- `str.isascii()`. -/
def isAsciiStr (s : Str) : Bool := s.all (fun c => decide (c.toNat < 128))

/-- version3 `validate_product` as an ordered, short-circuiting chain,
returning the first failure's error message (the generator appends
exactly one error per rejected record).  The custom-validator loop is
empty for the default-constructed generator the claims concern, and the
active syntax identifier is the default `UNOA`, so the ASCII constraint
on the description applies. -/
def validate_core (p : Product) : Option Str :=
  let missing := requiredFieldNames.filter (fun f => !optTruthy (fieldOf p f))
  if !missing.isEmpty then
    some ("Product missing required fields: ".data ++ joinCommaSep missing)
  else
    match pyFloat (sanitize_value (optVal p.price) false) with
    | none => some ("Invalid price value: ".data ++ optVal p.price)
    | some d =>
      if !decPositive d then some ("Price must be positive: ".data ++ optVal p.price)
      else
        match pyFloat (sanitize_value (optVal p.quantity) false) with
        | none => some ("Invalid quantity value: ".data ++ optVal p.quantity)
        | some q =>
          if !decPositive q then some ("Quantity must be positive: ".data ++ optVal p.quantity)
          else
            let cur := sanitize_value (optVal p.currency) true
            if !(validCurrencies.contains cur) then
              some ("Invalid currency: ".data ++ cur)
            else
              let un := sanitize_value (optVal p.unit) true
              if !(validUnits.contains un) then
                some ("Invalid unit: ".data ++ un)
              else
                let desc := sanitize_value (optVal p.description) false
                if !isAsciiStr desc then
                  some ("Description contains non-ASCII characters: ".data ++ desc)
                else if optTruthy p.supplier_code && !idOk (optVal p.supplier_code) then
                  some ("Invalid supplier_code: ".data ++ optVal p.supplier_code)
                else if optTruthy p.barcode && !idOk (optVal p.barcode) then
                  some ("Invalid barcode: ".data ++ optVal p.barcode)
                else if optTruthy p.internal_ref && !idOk (optVal p.internal_ref) then
                  some ("Invalid internal_ref: ".data ++ optVal p.internal_ref)
                else none

/-- version3 `validate_product`: accept/reject flag plus the error
messages appended to the run's error list by this call. -/
def validate_product (p : Product) : Bool × List Str :=
  match validate_core p with
  | some e => (false, [e])
  | none => (true, [])

/-- Whether version3 validation accepts the record. -/
def accepted (p : Product) : Bool := (validate_product p).fst

/-- `str(n)` for the non-negative integers the generator prints (line
numbers, segment counts, the message count). -/
def natToStr (n : Nat) : Str := Nat.toDigits 10 n

/-- A sub-entry of a segment template: a literal, a `${...}` placeholder,
or `None`. -/
inductive TSub where
  | lit : Str → TSub
  | ph : Str → TSub
  | snone : TSub
deriving DecidableEq

/-- An entry of a segment template: a literal, a placeholder, `None`, or a
composite sub-list. -/
inductive TElem where
  | lit : Str → TElem
  | ph : Str → TElem
  | enone : TElem
  | comp : List TSub → TElem
deriving DecidableEq

/-- `kwargs.get(key, "")`: placeholder resolution over the keyword
arguments, substituting the empty string for a missing name. -/
def kwGet (params : List (Str × Str)) (k : Str) : Str :=
  match params.find? (fun kv => kv.fst = k) with
  | some kv => kv.snd
  | none => []

/-- Resolution of one sub-entry inside a composite template entry. -/
def resolveTSub (params : List (Str × Str)) : TSub → Option Str
  | .lit s => some s
  | .ph k => some (kwGet params k)
  | .snone => none

/-- Resolution of one template entry into a segment element. -/
def resolveTElem (params : List (Str × Str)) : TElem → Element
  | .lit s => .scalar s
  | .ph k => .scalar (kwGet params k)
  | .enone => .absent
  | .comp subs => .composite (subs.map (resolveTSub params))

/-- `_load_default_templates` (version3 line 98): the six built-in segment
templates, keyed by kind.  Note that each template's first entry is the
literal EDIFACT tag (`LIN`, `PIA`, ...) stored as an ordinary element. -/
def default_templates (kind : Str) : Option (List TElem) :=
  if kind = "product_header".data then
    some [.lit "LIN".data, .ph "line_number".data, .lit "1".data, .lit "EN".data]
  else if kind = "product_id".data then
    some [.lit "PIA".data, .ph "qualifier".data,
      .comp [.ph "product_id".data, .ph "id_type".data]]
  else if kind = "product_description".data then
    some [.lit "IMD".data, .ph "desc_type".data, .enone, .enone, .enone,
      .ph "description".data]
  else if kind = "product_price".data then
    some [.lit "PRI".data, .ph "price_qualifier".data,
      .comp [.ph "price".data, .lit "CT".data, .ph "currency".data]]
  else if kind = "product_quantity".data then
    some [.lit "QTY".data,
      .comp [.ph "qty_qualifier".data, .ph "quantity".data, .ph "unit".data]]
  else if kind = "product_reference".data then
    some [.lit "RFF".data, .comp [.ph "ref_qualifier".data, .ph "reference".data]]
  else none

/-- `_build_segment_from_template` (version3 line 213): resolve every
placeholder and hand the result to the segment encoder, with the
segment's tag being the UPPERCASED TEMPLATE KIND (an unknown kind raises,
modelled as `none`). -/
def build_segment_from_template (kind : Str) (params : List (Str × Str)) (c : Nat) :
    Option (Str × Nat) :=
  (default_templates kind).map
    (fun t => format_segment (upperStr kind) (t.map (resolveTElem params)) c)

/-- `_build_lin_segment` (version3): the `product_header` template applied
to a line number.  The kind is registered, so the fallback is never
taken. -/
def build_lin (n : Nat) (c : Nat) : Str × Nat :=
  (build_segment_from_template "product_header".data
    [("line_number".data, natToStr n)] c).getD ([], c)

/-- `_build_pia_segment` (version3). -/
def build_pia (productId qualifier : Str) (c : Nat) : Str × Nat :=
  (build_segment_from_template "product_id".data
    [("product_id".data, productId), ("qualifier".data, qualifier),
      ("id_type".data, qualifier)] c).getD ([], c)

/-- `_build_imd_segment` (version3), with the default description type
`F`. -/
def build_imd (description : Str) (c : Nat) : Str × Nat :=
  (build_segment_from_template "product_description".data
    [("description".data, description), ("desc_type".data, "F".data)] c).getD ([], c)

/-- `_build_pri_segment` (version3), with the default price qualifier
`AAA`. -/
def build_pri (price currency : Str) (c : Nat) : Str × Nat :=
  (build_segment_from_template "product_price".data
    [("price".data, price), ("currency".data, currency),
      ("price_qualifier".data, "AAA".data)] c).getD ([], c)

/-- `_build_qty_segment` (version3), with the default quantity qualifier
`12`. -/
def build_qty (quantity unit : Str) (c : Nat) : Str × Nat :=
  (build_segment_from_template "product_quantity".data
    [("quantity".data, quantity), ("unit".data, unit),
      ("qty_qualifier".data, "12".data)] c).getD ([], c)

/-- `_build_rff_segment` (version3). -/
def build_rff (refQualifier reference : Str) (c : Nat) : Str × Nat :=
  (build_segment_from_template "product_reference".data
    [("ref_qualifier".data, refQualifier), ("reference".data, reference)] c).getD ([], c)

/-- The element list of the interchange header (UNB): syntax identifier
composite, sender and receiver composites, preparation date/time,
interchange control reference, five unused positions and the `None`
test indicator. -/
def unbElements (ctx : Ctx) (prep : Str) : List Element :=
  [.composite [some "UNOA".data, some "3".data],
   .composite [some ctx.sender, some "ZZZ".data],
   .composite [some ctx.receiver, some "ZZZ".data],
   .scalar prep, .scalar ctx.icr,
   .absent, .absent, .absent, .absent, .absent, .absent]

/-- `_build_unb_segment`. -/
def build_unb (ctx : Ctx) (prep : Str) (c : Nat) : Str × Nat :=
  format_segment "UNB".data (unbElements ctx prep) c

/-- `_build_unh_segment`. -/
def build_unh (ctx : Ctx) (c : Nat) : Str × Nat :=
  format_segment "UNH".data
    [.scalar ctx.message_ref,
     .composite [some "PRODCAT".data, some "D".data, some "01B".data,
       some "UN".data, some "UN".data],
     .absent, .absent, .absent] c

/-- `_build_bgm_segment` (version3 sanitizes the document number). -/
def build_bgm (docNumber : Str) (c : Nat) : Str × Nat :=
  format_segment "BGM".data
    [.scalar "220".data, .scalar (sanitize_value docNumber false), .scalar "9".data] c

/-- The error message `_build_dtm_segment` records for an invalid date. -/
def dtmErrMsg (dateValue : Str) : Str :=
  "Invalid date format for 137. Value: ".data ++ dateValue ++ ", Expected format: 102".data

/-- `_build_dtm_segment` for qualifier 137 / format 102 (the only call the
assembler makes): an invalid date yields no segment (and no counter
increment) plus one error message. -/
def build_dtm (dateValue : Str) (c : Nat) : Option (Str × Nat) × List Str :=
  if validate_date_format dateValue "102".data then
    (some (format_segment "DTM".data
      [.composite [some "137".data, some dateValue, some "102".data]] c), [])
  else (none, [dtmErrMsg dateValue])

/-- `_build_nad_segment` (version3): qualifier (sanitized, uppercased),
party identification composite with the agency code `9` in its fifth
position, and the optional (truthy) party name. -/
def build_nad (qualifier partyId : Str) (name : Option Str) (c : Nat) : Str × Nat :=
  format_segment "NAD".data
    ([.scalar (sanitize_value qualifier true),
      .composite [some (sanitize_value partyId false), none, none, none, some "9".data]] ++
      (if optTruthy name then [.scalar (sanitize_value (optVal name) false)] else [])) c

/-- `_build_unt_segment`: the declared count is the running segment
counter at the moment the trailer is built, PLUS ONE. -/
def build_unt (ctx : Ctx) (c : Nat) : Str × Nat :=
  format_segment "UNT".data [.scalar (natToStr (c + 1)), .scalar ctx.message_ref] c

/-- `_build_unz_segment` with the default message count 1. -/
def build_unz (ctx : Ctx) (c : Nat) : Str × Nat :=
  format_segment "UNZ".data [.scalar (natToStr 1), .scalar ctx.icr] c

/-- Python `x or default` over an optional name argument. -/
def nameOr (o : Option Str) (d : Str) : Str := if optTruthy o then optVal o else d

/-- The non-record inputs of one generation call: the context plus the
clock-derived strings (UNB preparation date/time, DTM document date) and
the document number and party names, all resolved by the caller. -/
structure GenParams where
  ctx : Ctx
  prep : Str
  docDate : Str
  docNumber : Str
  senderName : Option Str
  receiverName : Option Str
deriving DecidableEq

/-- The header phase shared by both emission modes: UNB, UNH, BGM, the
date segment when the date is valid (on an invalid date the counter is
decremented by one, version3 line 488/571), then the buyer and supplier
party segments.  Returns the segments, the errors recorded, and the
counter. -/
def headerPhase (g : GenParams) (c0 : Nat) : List Str × List Str × Nat :=
  let (s1, c1) := build_unb g.ctx g.prep c0
  let (s2, c2) := build_unh g.ctx c1
  let (s3, c3) := build_bgm g.docNumber c2
  match build_dtm g.docDate c3 with
  | (some (s4, c4), _) =>
    let (s5, c5) := build_nad "BY".data g.ctx.receiver
      (some (nameOr g.receiverName "Buyer Company Name".data)) c4
    let (s6, c6) := build_nad "SU".data g.ctx.sender
      (some (nameOr g.senderName "Supplier Company Name".data)) c5
    ([s1, s2, s3, s4, s5, s6], [], c6)
  | (none, es) =>
    let (s5, c5) := build_nad "BY".data g.ctx.receiver
      (some (nameOr g.receiverName "Buyer Company Name".data)) (c3 - 1)
    let (s6, c6) := build_nad "SU".data g.ctx.sender
      (some (nameOr g.senderName "Supplier Company Name".data)) c5
    ([s1, s2, s3, s5, s6], es, c6)

/-- One accepted record's line-item group (version3 order): line-item
header; supplementary identifier for supplier code and for barcode when
truthy; description; price; quantity; cross reference when truthy. -/
def productGroup (p : Product) (n : Nat) (c0 : Nat) : List Str × Nat :=
  let (s1, c1) := build_lin n c0
  let (l2, c2) :=
    if optTruthy p.supplier_code then
      let (s, c) := build_pia (optVal p.supplier_code) "SA".data c1
      ([s], c)
    else ([], c1)
  let (l3, c3) :=
    if optTruthy p.barcode then
      let (s, c) := build_pia (optVal p.barcode) "GT".data c2
      ([s], c)
    else ([], c2)
  let (s4, c4) := build_imd (optVal p.description) c3
  let (s5, c5) := build_pri (optVal p.price) (optVal p.currency) c4
  let (s6, c6) := build_qty (optVal p.quantity) (optVal p.unit) c5
  let (l7, c7) :=
    if optTruthy p.internal_ref then
      let (s, c) := build_rff "AAN".data (optVal p.internal_ref) c6
      ([s], c)
    else ([], c6)
  ([s1] ++ l2 ++ l3 ++ [s4, s5, s6] ++ l7, c7)

/-- The groups of a list of accepted records, numbered from `n`. -/
def buildGroups : List Product → Nat → Nat → List Str × Nat
  | [], _, c => ([], c)
  | p :: ps, n, c =>
    let (g, c1) := productGroup p n c
    let (rest, c2) := buildGroups ps (n + 1) c1
    (g ++ rest, c2)

/-- The buffered mode's up-front validation pass
(`[p for p in products if self.validate_product(p)]`): the surviving
records in order, and every error message recorded. -/
def validateAll : List Product → List Product × List Str
  | [] => ([], [])
  | p :: ps =>
    let (ok, es) := validate_product p
    let (v, rest) := validateAll ps
    (if ok then p :: v else v, es ++ rest)

/-- The observable outcome of one generation call: the returned success
flag, the segment lines written to the sink (empty when nothing was
written), and the run's error list. -/
structure RunOutput where
  ok : Bool
  written : List Str
  errors : List Str
deriving DecidableEq

/-- The buffered emission mode (version3 `create_prodcat_file` after the
dispatch point): validate everything, fail with the empty-input error
and no output when nothing survives, otherwise assemble the whole
message and write it once. -/
def bufferedCore (g : GenParams) (products : List Product) : RunOutput :=
  let (valid, verrs) := validateAll products
  if valid.isEmpty then
    ⟨false, [], verrs ++ ["No valid products to process".data]⟩
  else
    let (hs, herrs, ch) := headerPhase g 0
    let (gs, cg) := buildGroups valid 1 ch
    let (unt, cu) := build_unt g.ctx cg
    let (unz, _) := build_unz g.ctx cu
    ⟨true, hs ++ gs ++ [unt, unz], verrs ++ herrs⟩

/-- One record of the streaming loop: a rejected record only contributes
its error; an accepted one bumps the valid counter and appends its
group.  State: (segments, errors, segment counter, valid counter). -/
def streamStep (st : List Str × List Str × Nat × Nat) (p : Product) :
    List Str × List Str × Nat × Nat :=
  let (segs, errs, c, k) := st
  let (ok, es) := validate_product p
  if ok then
    let (grp, c1) := productGroup p (k + 1) c
    (segs ++ grp, errs ++ es, c1, k + 1)
  else (segs, errs ++ es, c, k)

/-- Chunking worker, structurally recursive on a fuel bound (the fuel is
always at least the list length, so the zero-fuel arm is never taken for
the actual argument). -/
def chunkListAux (m : Nat) : Nat → List Product → List (List Product)
  | _, [] => []
  | 0, p :: ps => [p :: ps]
  | fuel + 1, p :: ps =>
    ((p :: ps).take (m + 1)) :: chunkListAux m fuel ((p :: ps).drop (m + 1))

/-- `products[i:i+chunk_size]` chunking with chunk size `m + 1`
(the configured chunk size is 1000). -/
def chunkList (m : Nat) (l : List Product) : List (List Product) :=
  chunkListAux m l.length l

/-- The streaming emission mode (version3 `create_prodcat_file_streaming`,
as invoked through the dispatcher after the counters were reset): write
the header segments, process the records in chunks of 1000, then write
the trailers.  There is NO all-rejected check: the function always
reports success and always writes the envelope. -/
def streamingCore (g : GenParams) (products : List Product) : RunOutput :=
  let (hs, herrs, ch) := headerPhase g 0
  let (segs, errs, cg, _) :=
    (chunkList 999 products).foldl (fun st chunk => chunk.foldl streamStep st)
      ([], herrs, ch, 0)
  let (unt, cu) := build_unt g.ctx cg
  let (unz, _) := build_unz g.ctx cu
  ⟨true, hs ++ segs ++ [unt, unz], errs⟩

/-- version3 `create_prodcat_file`: reset state, reject an empty record
list, then dispatch to the streaming mode when requested or when the
record count exceeds the configured chunk size (1000), and to the
buffered mode otherwise. -/
def create_prodcat_file (g : GenParams) (products : List Product)
    (useStreaming : Bool) : RunOutput :=
  if products.isEmpty then
    ⟨false, [], ["No products provided for PRODCAT generation.".data]⟩
  else if useStreaming || decide (products.length > 1000) then
    streamingCore g products
  else
    bufferedCore g products

/-- version1 `validate_product`: only the required-field check and a
numeric-parse check on the price (no positivity, currency, unit,
character-set or identifier checks). -/
def validate_core_v1 (p : Product) : Option Str :=
  let missing := requiredFieldNames.filter (fun f => !optTruthy (fieldOf p f))
  if !missing.isEmpty then
    some ("Product missing required fields: ".data ++ joinCommaSep missing)
  else
    match pyFloat (optVal p.price) with
    | none => some ("Invalid price value: ".data ++ optVal p.price)
    | some _ => none

/-- version1 `_build_bgm_segment` (no sanitizing). -/
def build_bgm_v1 (docNumber : Str) (c : Nat) : Str × Nat :=
  format_segment "BGM".data
    [.scalar "220".data, .scalar docNumber, .scalar "9".data] c

/-- version1 `_build_nad_segment` (no sanitizing). -/
def build_nad_v1 (qualifier partyId : Str) (name : Option Str) (c : Nat) : Str × Nat :=
  format_segment "NAD".data
    ([.scalar qualifier,
      .composite [some partyId, none, none, none, some "9".data]] ++
      (if optTruthy name then [.scalar (optVal name)] else [])) c

/-- version1 `_build_lin_segment`: a real `LIN` tag. -/
def build_lin_v1 (n : Nat) (c : Nat) : Str × Nat :=
  format_segment "LIN".data
    [.scalar (natToStr n), .scalar "1".data, .scalar "EN".data] c

/-- version1 `_build_pia_segment` (the id type is the literal `BP`). -/
def build_pia_v1 (productId qualifier : Str) (c : Nat) : Str × Nat :=
  format_segment "PIA".data
    [.scalar qualifier, .composite [some productId, some "BP".data]] c

/-- version1 `_build_imd_segment` with the default description type `F`. -/
def build_imd_v1 (description : Str) (c : Nat) : Str × Nat :=
  format_segment "IMD".data
    [.scalar "F".data, .absent, .absent, .absent, .scalar description] c

/-- version1 `_build_pri_segment` with the default price qualifier. -/
def build_pri_v1 (price currency : Str) (c : Nat) : Str × Nat :=
  format_segment "PRI".data
    [.scalar "AAA".data, .composite [some price, some "CT".data, some currency]] c

/-- version1 `_build_qty_segment` with the default quantity qualifier. -/
def build_qty_v1 (quantity unit : Str) (c : Nat) : Str × Nat :=
  format_segment "QTY".data
    [.composite [some "12".data, some quantity, some unit]] c

/-- version1 `_build_rff_segment`. -/
def build_rff_v1 (refQualifier reference : Str) (c : Nat) : Str × Nat :=
  format_segment "RFF".data
    [.composite [some refQualifier, some reference]] c

/-- version1 header phase: like version3 but without sanitizing and
without the counter adjustment when the date segment is skipped. -/
def headerPhase_v1 (g : GenParams) (c0 : Nat) : List Str × List Str × Nat :=
  let (s1, c1) := build_unb g.ctx g.prep c0
  let (s2, c2) := build_unh g.ctx c1
  let (s3, c3) := build_bgm_v1 g.docNumber c2
  match build_dtm g.docDate c3 with
  | (some (s4, c4), _) =>
    let (s5, c5) := build_nad_v1 "BY".data g.ctx.receiver
      (some (nameOr g.receiverName "Buyer Company Name".data)) c4
    let (s6, c6) := build_nad_v1 "SU".data g.ctx.sender
      (some (nameOr g.senderName "Supplier Company Name".data)) c5
    ([s1, s2, s3, s4, s5, s6], [], c6)
  | (none, es) =>
    let (s5, c5) := build_nad_v1 "BY".data g.ctx.receiver
      (some (nameOr g.receiverName "Buyer Company Name".data)) c3
    let (s6, c6) := build_nad_v1 "SU".data g.ctx.sender
      (some (nameOr g.senderName "Supplier Company Name".data)) c5
    ([s1, s2, s3, s5, s6], es, c6)

/-- version1 line-item group. -/
def productGroup_v1 (p : Product) (n : Nat) (c0 : Nat) : List Str × Nat :=
  let (s1, c1) := build_lin_v1 n c0
  let (l2, c2) :=
    if optTruthy p.supplier_code then
      let (s, c) := build_pia_v1 (optVal p.supplier_code) "SA".data c1
      ([s], c)
    else ([], c1)
  let (l3, c3) :=
    if optTruthy p.barcode then
      let (s, c) := build_pia_v1 (optVal p.barcode) "GT".data c2
      ([s], c)
    else ([], c2)
  let (s4, c4) := build_imd_v1 (optVal p.description) c3
  let (s5, c5) := build_pri_v1 (optVal p.price) (optVal p.currency) c4
  let (s6, c6) := build_qty_v1 (optVal p.quantity) (optVal p.unit) c5
  let (l7, c7) :=
    if optTruthy p.internal_ref then
      let (s, c) := build_rff_v1 "AAN".data (optVal p.internal_ref) c6
      ([s], c)
    else ([], c6)
  ([s1] ++ l2 ++ l3 ++ [s4, s5, s6] ++ l7, c7)

/-- version1 groups over all records, numbered from `n`. -/
def buildGroups_v1 : List Product → Nat → Nat → List Str × Nat
  | [], _, c => ([], c)
  | p :: ps, n, c =>
    let (g, c1) := productGroup_v1 p n c
    let (rest, c2) := buildGroups_v1 ps (n + 1) c1
    (g ++ rest, c2)

/-- version1's up-front validation loop (line 364): the FIRST failing
record records its reason plus a "Validation failed for product i"
message and makes the whole call return failure. -/
def v1ValidateLoop : List Product → Nat → Option (List Str)
  | [], _ => none
  | p :: ps, i =>
    match validate_core_v1 p with
    | some e =>
      some [e, "Validation failed for product ".data ++ natToStr i]
    | none => v1ValidateLoop ps (i + 1)

/-- version1 `create_prodcat_file`: empty input fails; ANY invalid record
aborts the whole batch with failure and no output; otherwise every
record (all valid) gets a group. -/
def create_prodcat_file_v1 (g : GenParams) (products : List Product) : RunOutput :=
  if products.isEmpty then
    ⟨false, [], ["No products provided for PRODCAT generation.".data]⟩
  else
    match v1ValidateLoop products 1 with
    | some errs => ⟨false, [], errs⟩
    | none =>
      let (hs, herrs, ch) := headerPhase_v1 g 0
      let (gs, cg) := buildGroups_v1 products 1 ch
      let (unt, cu) := build_unt g.ctx cg
      let (unz, _) := build_unz g.ctx cu
      ⟨true, hs ++ gs ++ [unt, unz], herrs⟩

/-- `segment.startswith(prefix)`. -/
def startsWithStr (pre s : Str) : Bool := decide (s.take pre.length = pre)

/-- `segment.startswith('LIN')`, the predicate of the Verifier's
`product_lines` statistic. -/
def isLinTag (s : Str) : Bool := startsWithStr "LIN".data s

/-- The counting step of the Verifier's `product_lines` statistic
(version3 line 649): how many of the given lines start with the text
`LIN`.  `product_lines_file` below composes this with the verifier's
actual line recovery (re-splitting the re-read file content on the line
separator, stripping, dropping blanks). -/
def product_lines_stat (segs : List Str) : Nat :=
  (segs.filter isLinTag).length

/-- Identifies version3 line-item header segments: among all segment kinds
the generator emits, exactly the `product_header` template's segments
(tag `PRODUCT_HEADER`) begin with the text `PRODUCT_H`, so this
predicate counts line-item groups in a version3 message. -/
def isLinHdr (s : Str) : Bool := startsWithStr "PRODUCT_H".data s

/-- The number of line-item groups in a written segment sequence. -/
def countGroups (segs : List Str) : Nat := (segs.filter isLinHdr).length

/-- The tail of a rendered segment after its tag: the delimiter-joined
trimmed element positions and the terminator. -/
def segTail (elements : List Element) : Str :=
  ((elements.map renderElement).reverse.dropWhile (fun p => p.isEmpty)).reverse.flatMap
    (fun q => dataDelim :: q) ++ [terminatorChar]

/-- A concrete context: sender `A.1`, receiver `B-2` (already normalized),
message reference `MSG1`, interchange control reference `123456`. -/
def ctx0 : Ctx := ⟨"A.1".data, "B-2".data, "MSG1".data, "123456".data⟩

/-- Concrete generation inputs for the fixed-clock scenarios. -/
def g0 : GenParams :=
  ⟨ctx0, "240101:1200".data, "20240101".data, "CAT1".data, none, none⟩

/-- The concrete scenario's record. -/
def widget : Product :=
  ⟨some "Widget".data, some "10".data, some "PCE".data, some "5.00".data,
   some "USD".data, none, none, none⟩

/-- A record that fails validation (missing description). -/
def noDesc : Product :=
  ⟨none, some "1".data, some "PCE".data, some "1".data, some "USD".data,
   none, none, none⟩

/-- A record that fails version3 validation (currency not allowed). -/
def badCur : Product :=
  ⟨some "W".data, some "1".data, some "PCE".data, some "1".data, some "XXX".data,
   none, none, none⟩

/-- The text of the date segment the assembler emits for a valid date. -/
def build_dtm_seg (dateValue : Str) : Str :=
  renderSegment "DTM".data
    [.composite [some "137".data, some dateValue, some "102".data]]

/-- The line separator each write appends after a segment. -/
def newlineChar : Char := Char.ofNat 10

/-- `content.split(newline)`, exactly as Python `str.split` on a single
character: always at least one piece, adjacent separators and a
trailing separator produce empty pieces. -/
def splitNL : Str → List Str
  | [] => [[]]
  | c :: rest =>
    if c = newlineChar then
      [] :: splitNL rest
    else
      match splitNL rest with
      | [] => [[c]]
      | l :: ls => (c :: l) :: ls

/-- The bytes a run leaves on the sink: every segment line followed by
the line separator (each write is `segment + '\n'`). -/
def fileContent (segs : List Str) : Str :=
  segs.flatMap (fun s => s ++ [newlineChar])

/-- `verify_edi_file`'s line recovery (version3 line 632):
`[line.strip() for line in content.split('\n') if line.strip()]`. -/
def verify_lines (content : Str) : List Str :=
  ((splitNL content).map stripStr).filter (fun l => !l.isEmpty)

/-- The Verifier's `product_lines` statistic as `verify_edi_file`
actually computes it: re-split the re-read file content on the line
separator, strip each line, drop blank lines, and count the lines that
start with the text `LIN`. -/
def product_lines_file (content : Str) : Nat :=
  product_lines_stat (verify_lines content)

/-- A record whose description contains a raw line separator directly
before the text `LIN`; it passes version3 validation (non-empty, ASCII)
and the escaper never touches the line separator. -/
def nlDesc : Product :=
  ⟨some "W\nLIN".data, some "1".data, some "PCE".data, some "1".data,
   some "USD".data, none, none, none⟩

/-- Well-formed segment lines: stripped already (no leading or trailing
whitespace) and non-empty, so `verify_edi_file`'s strip-and-drop-blank
pass leaves them unchanged. -/
def segsWF (l : List Str) : Prop := ∀ s ∈ l, stripStr s = s ∧ s ≠ []

theorem take_cons_ne {a b : Char} (l l2 : List Char) (h : a ≠ b) (m : Nat) :
    (a :: l).take m ≠ b :: l2 := by
  cases m with
  | zero => simp
  | succ k => simp [List.take_succ_cons, List.cons.injEq, h]

theorem startsWithStr_head_ne {a b : Char} (l l2 : List Char) (h : a ≠ b) :
    startsWithStr (b :: l2) (a :: l) = false := by
  simp only [startsWithStr]
  exact decide_eq_false (take_cons_ne l l2 h (b :: l2).length)

theorem startsWithStr_append_le (pre tag r : Str) (h : pre.length ≤ tag.length) :
    startsWithStr pre (tag ++ r) = startsWithStr pre tag := by
  simp only [startsWithStr, List.take_append_of_le_length h]

theorem renderSegment_decomp (tag : Str) (elements : List Element) :
    renderSegment tag elements = tag ++ segTail elements := by
  simp [renderSegment, segTail, trimSegmentParts, joinParts, List.append_assoc]

theorem build_lin_eq (n c : Nat) :
    build_lin n c = (renderSegment "PRODUCT_HEADER".data
      [.scalar "LIN".data, .scalar (natToStr n), .scalar "1".data, .scalar "EN".data],
      c + 1) := rfl

theorem build_pia_eq (productId qualifier : Str) (c : Nat) :
    build_pia productId qualifier c = (renderSegment "PRODUCT_ID".data
      [.scalar "PIA".data, .scalar qualifier,
        .composite [some productId, some qualifier]], c + 1) := rfl

theorem build_imd_eq (description : Str) (c : Nat) :
    build_imd description c = (renderSegment "PRODUCT_DESCRIPTION".data
      [.scalar "IMD".data, .scalar "F".data, .absent, .absent, .absent,
        .scalar description], c + 1) := rfl

theorem build_pri_eq (price currency : Str) (c : Nat) :
    build_pri price currency c = (renderSegment "PRODUCT_PRICE".data
      [.scalar "PRI".data, .scalar "AAA".data,
        .composite [some price, some "CT".data, some currency]], c + 1) := rfl

theorem build_qty_eq (quantity unit : Str) (c : Nat) :
    build_qty quantity unit c = (renderSegment "PRODUCT_QUANTITY".data
      [.scalar "QTY".data,
        .composite [some "12".data, some quantity, some unit]], c + 1) := rfl

theorem build_rff_eq (refQualifier reference : Str) (c : Nat) :
    build_rff refQualifier reference c = (renderSegment "PRODUCT_REFERENCE".data
      [.scalar "RFF".data,
        .composite [some refQualifier, some reference]], c + 1) := rfl

theorem isLinHdr_renderSegment_long (tag : Str) (e : List Element)
    (h : 9 ≤ tag.length) :
    isLinHdr (renderSegment tag e) = startsWithStr "PRODUCT_H".data tag := by
  rw [renderSegment_decomp]
  exact startsWithStr_append_le _ _ _ h

theorem startsLIN_renderSegment (tag : Str) (e : List Element)
    (h : 3 ≤ tag.length) :
    isLinTag (renderSegment tag e) = startsWithStr "LIN".data tag := by
  rw [renderSegment_decomp]
  exact startsWithStr_append_le _ _ _ h

theorem isLinHdr_short (a : Char) (t : Str) (e : List Element) (h : a ≠ 'P') :
    isLinHdr (renderSegment (a :: t) e) = false := by
  rw [renderSegment_decomp, List.cons_append]
  simp only [isLinHdr]
  exact startsWithStr_head_ne _ _ h

theorem isLinHdr_unb (e : List Element) : isLinHdr (renderSegment "UNB".data e) = false :=
  isLinHdr_short 'U' "NB".data e (by decide)

theorem isLinHdr_unh (e : List Element) : isLinHdr (renderSegment "UNH".data e) = false :=
  isLinHdr_short 'U' "NH".data e (by decide)

theorem isLinHdr_bgm (e : List Element) : isLinHdr (renderSegment "BGM".data e) = false :=
  isLinHdr_short 'B' "GM".data e (by decide)

theorem isLinHdr_dtm (e : List Element) : isLinHdr (renderSegment "DTM".data e) = false :=
  isLinHdr_short 'D' "TM".data e (by decide)

theorem isLinHdr_nad (e : List Element) : isLinHdr (renderSegment "NAD".data e) = false :=
  isLinHdr_short 'N' "AD".data e (by decide)

theorem isLinHdr_unt (e : List Element) : isLinHdr (renderSegment "UNT".data e) = false :=
  isLinHdr_short 'U' "NT".data e (by decide)

theorem isLinHdr_unz (e : List Element) : isLinHdr (renderSegment "UNZ".data e) = false :=
  isLinHdr_short 'U' "NZ".data e (by decide)

theorem isLinHdr_hdr (e : List Element) :
    isLinHdr (renderSegment "PRODUCT_HEADER".data e) = true := by
  rw [isLinHdr_renderSegment_long _ e (by decide)]; decide

theorem isLinHdr_pid (e : List Element) :
    isLinHdr (renderSegment "PRODUCT_ID".data e) = false := by
  rw [isLinHdr_renderSegment_long _ e (by decide)]; decide

theorem isLinHdr_pdesc (e : List Element) :
    isLinHdr (renderSegment "PRODUCT_DESCRIPTION".data e) = false := by
  rw [isLinHdr_renderSegment_long _ e (by decide)]; decide

theorem isLinHdr_ppri (e : List Element) :
    isLinHdr (renderSegment "PRODUCT_PRICE".data e) = false := by
  rw [isLinHdr_renderSegment_long _ e (by decide)]; decide

theorem isLinHdr_pqty (e : List Element) :
    isLinHdr (renderSegment "PRODUCT_QUANTITY".data e) = false := by
  rw [isLinHdr_renderSegment_long _ e (by decide)]; decide

theorem isLinHdr_pref (e : List Element) :
    isLinHdr (renderSegment "PRODUCT_REFERENCE".data e) = false := by
  rw [isLinHdr_renderSegment_long _ e (by decide)]; decide

theorem startsLIN_unb (e : List Element) :
    isLinTag (renderSegment "UNB".data e) = false := by
  rw [startsLIN_renderSegment _ e (by decide)]; decide

theorem startsLIN_unh (e : List Element) :
    isLinTag (renderSegment "UNH".data e) = false := by
  rw [startsLIN_renderSegment _ e (by decide)]; decide

theorem startsLIN_bgm (e : List Element) :
    isLinTag (renderSegment "BGM".data e) = false := by
  rw [startsLIN_renderSegment _ e (by decide)]; decide

theorem startsLIN_dtm (e : List Element) :
    isLinTag (renderSegment "DTM".data e) = false := by
  rw [startsLIN_renderSegment _ e (by decide)]; decide

theorem startsLIN_nad (e : List Element) :
    isLinTag (renderSegment "NAD".data e) = false := by
  rw [startsLIN_renderSegment _ e (by decide)]; decide

theorem startsLIN_unt (e : List Element) :
    isLinTag (renderSegment "UNT".data e) = false := by
  rw [startsLIN_renderSegment _ e (by decide)]; decide

theorem startsLIN_unz (e : List Element) :
    isLinTag (renderSegment "UNZ".data e) = false := by
  rw [startsLIN_renderSegment _ e (by decide)]; decide

theorem startsLIN_hdr (e : List Element) :
    isLinTag (renderSegment "PRODUCT_HEADER".data e) = false := by
  rw [startsLIN_renderSegment _ e (by decide)]; decide

theorem startsLIN_pid (e : List Element) :
    isLinTag (renderSegment "PRODUCT_ID".data e) = false := by
  rw [startsLIN_renderSegment _ e (by decide)]; decide

theorem startsLIN_pdesc (e : List Element) :
    isLinTag (renderSegment "PRODUCT_DESCRIPTION".data e) = false := by
  rw [startsLIN_renderSegment _ e (by decide)]; decide

theorem startsLIN_ppri (e : List Element) :
    isLinTag (renderSegment "PRODUCT_PRICE".data e) = false := by
  rw [startsLIN_renderSegment _ e (by decide)]; decide

theorem startsLIN_pqty (e : List Element) :
    isLinTag (renderSegment "PRODUCT_QUANTITY".data e) = false := by
  rw [startsLIN_renderSegment _ e (by decide)]; decide

theorem startsLIN_pref (e : List Element) :
    isLinTag (renderSegment "PRODUCT_REFERENCE".data e) = false := by
  rw [startsLIN_renderSegment _ e (by decide)]; decide

theorem countGroups_append (a b : List Str) :
    countGroups (a ++ b) = countGroups a + countGroups b := by
  simp [countGroups, List.filter_append]

theorem stat_append (a b : List Str) :
    product_lines_stat (a ++ b) = product_lines_stat a + product_lines_stat b := by
  simp [product_lines_stat, List.filter_append]

theorem validate_product_of_core_some (p : Product) (e : Str)
    (h : validate_core p = some e) : validate_product p = (false, [e]) := by
  simp [validate_product, h]

theorem validate_product_of_core_none (p : Product)
    (h : validate_core p = none) : validate_product p = (true, []) := by
  simp [validate_product, h]

theorem accepted_iff_core_none (p : Product) :
    accepted p = true ↔ validate_core p = none := by
  cases h : validate_core p <;> simp [accepted, validate_product, h]

theorem validateAll_fst (ps : List Product) :
    (validateAll ps).fst = ps.filter accepted := by
  induction ps with
  | nil => simp [validateAll]
  | cons p ps ih =>
    cases h : validate_core p with
    | some e =>
      have hacc : accepted p = false := by simp [accepted, validate_product, h]
      simp [validateAll, validate_product_of_core_some p e h, List.filter_cons, hacc, ih]
    | none =>
      have hacc : accepted p = true := by simp [accepted, validate_product, h]
      simp [validateAll, validate_product_of_core_none p h, List.filter_cons, hacc, ih]

theorem validateAll_snd_length (ps : List Product) :
    (validateAll ps).snd.length = ps.countP (fun q => !accepted q) := by
  induction ps with
  | nil => simp [validateAll]
  | cons p ps ih =>
    cases h : validate_core p with
    | some e =>
      have hacc : accepted p = false := by simp [accepted, validate_product, h]
      simp [validateAll, validate_product_of_core_some p e h, List.countP_cons, hacc, ih]
    | none =>
      have hacc : accepted p = true := by simp [accepted, validate_product, h]
      simp [validateAll, validate_product_of_core_none p h, List.countP_cons, hacc, ih]


theorem isLinHdr_build_lin (n c : Nat) : isLinHdr (build_lin n c).fst = true := by
  rw [build_lin_eq]; exact isLinHdr_hdr _

theorem isLinHdr_build_pia (a b : Str) (c : Nat) :
    isLinHdr (build_pia a b c).fst = false := by
  rw [build_pia_eq]; exact isLinHdr_pid _

theorem isLinHdr_build_imd (a : Str) (c : Nat) :
    isLinHdr (build_imd a c).fst = false := by
  rw [build_imd_eq]; exact isLinHdr_pdesc _

theorem isLinHdr_build_pri (a b : Str) (c : Nat) :
    isLinHdr (build_pri a b c).fst = false := by
  rw [build_pri_eq]; exact isLinHdr_ppri _

theorem isLinHdr_build_qty (a b : Str) (c : Nat) :
    isLinHdr (build_qty a b c).fst = false := by
  rw [build_qty_eq]; exact isLinHdr_pqty _

theorem isLinHdr_build_rff (a b : Str) (c : Nat) :
    isLinHdr (build_rff a b c).fst = false := by
  rw [build_rff_eq]; exact isLinHdr_pref _

theorem startsLIN_build_lin (n c : Nat) :
    isLinTag (build_lin n c).fst = false := by
  rw [build_lin_eq]; exact startsLIN_hdr _

theorem startsLIN_build_pia (a b : Str) (c : Nat) :
    isLinTag (build_pia a b c).fst = false := by
  rw [build_pia_eq]; exact startsLIN_pid _

theorem startsLIN_build_imd (a : Str) (c : Nat) :
    isLinTag (build_imd a c).fst = false := by
  rw [build_imd_eq]; exact startsLIN_pdesc _

theorem startsLIN_build_pri (a b : Str) (c : Nat) :
    isLinTag (build_pri a b c).fst = false := by
  rw [build_pri_eq]; exact startsLIN_ppri _

theorem startsLIN_build_qty (a b : Str) (c : Nat) :
    isLinTag (build_qty a b c).fst = false := by
  rw [build_qty_eq]; exact startsLIN_pqty _

theorem startsLIN_build_rff (a b : Str) (c : Nat) :
    isLinTag (build_rff a b c).fst = false := by
  rw [build_rff_eq]; exact startsLIN_pref _

theorem countGroups_nil : countGroups [] = 0 := rfl

theorem countGroups_single (s : Str) :
    countGroups [s] = if isLinHdr s then 1 else 0 := by
  by_cases h : isLinHdr s = true <;> simp [countGroups, List.filter_cons, h]

theorem stat_nil : product_lines_stat [] = 0 := rfl

theorem stat_single (s : Str) :
    product_lines_stat [s] = if isLinTag s then 1 else 0 := by
  by_cases h : isLinTag s = true <;>
    simp [product_lines_stat, List.filter_cons, h]

theorem productGroup_count (p : Product) (n c : Nat) :
    (productGroup p n c).snd = c + (productGroup p n c).fst.length := by
  cases h1 : optTruthy p.supplier_code <;> cases h2 : optTruthy p.barcode <;>
    cases h3 : optTruthy p.internal_ref <;>
    simp [productGroup, h1, h2, h3, build_lin_eq, build_pia_eq, build_imd_eq,
      build_pri_eq, build_qty_eq, build_rff_eq]

theorem productGroup_fst (p : Product) (n c : Nat) :
    (productGroup p n c).fst =
      [(build_lin n 0).fst] ++
      (if optTruthy p.supplier_code then
        [(build_pia (optVal p.supplier_code) "SA".data 0).fst] else []) ++
      (if optTruthy p.barcode then
        [(build_pia (optVal p.barcode) "GT".data 0).fst] else []) ++
      [(build_imd (optVal p.description) 0).fst,
       (build_pri (optVal p.price) (optVal p.currency) 0).fst,
       (build_qty (optVal p.quantity) (optVal p.unit) 0).fst] ++
      (if optTruthy p.internal_ref then
        [(build_rff "AAN".data (optVal p.internal_ref) 0).fst] else []) := by
  cases h1 : optTruthy p.supplier_code <;> cases h2 : optTruthy p.barcode <;>
    cases h3 : optTruthy p.internal_ref <;>
    simp [productGroup, h1, h2, h3, build_lin_eq, build_pia_eq, build_imd_eq,
      build_pri_eq, build_qty_eq, build_rff_eq]

theorem countGroups_cons (s : Str) (l : List Str) :
    countGroups (s :: l) = (if isLinHdr s then 1 else 0) + countGroups l := by
  by_cases h : isLinHdr s = true <;> simp [countGroups, List.filter_cons, h] <;> omega

theorem stat_cons (s : Str) (l : List Str) :
    product_lines_stat (s :: l) =
      (if isLinTag s then 1 else 0) + product_lines_stat l := by
  by_cases h : isLinTag s = true <;>
    simp [product_lines_stat, List.filter_cons, h] <;> omega

theorem countGroups_productGroup (p : Product) (n c : Nat) :
    countGroups (productGroup p n c).fst = 1 := by
  rw [productGroup_fst]
  cases h1 : optTruthy p.supplier_code <;> cases h2 : optTruthy p.barcode <;>
    cases h3 : optTruthy p.internal_ref <;>
    simp [h1, h2, h3, countGroups_cons, countGroups_nil,
      isLinHdr_build_lin, isLinHdr_build_pia, isLinHdr_build_imd, isLinHdr_build_pri,
      isLinHdr_build_qty, isLinHdr_build_rff]

theorem statLIN_productGroup (p : Product) (n c : Nat) :
    product_lines_stat (productGroup p n c).fst = 0 := by
  rw [productGroup_fst]
  cases h1 : optTruthy p.supplier_code <;> cases h2 : optTruthy p.barcode <;>
    cases h3 : optTruthy p.internal_ref <;>
    simp [h1, h2, h3, stat_cons, stat_nil,
      startsLIN_build_lin, startsLIN_build_pia, startsLIN_build_imd, startsLIN_build_pri,
      startsLIN_build_qty, startsLIN_build_rff]

theorem buildGroups_snd (v : List Product) : ∀ (n c : Nat),
    (buildGroups v n c).snd = c + (buildGroups v n c).fst.length := by
  induction v with
  | nil => intro n c; simp [buildGroups]
  | cons p ps ih =>
    intro n c
    have hp := productGroup_count p n c
    simp only [buildGroups]
    rcases hpg : productGroup p n c with ⟨grp, c1⟩
    rw [hpg] at hp
    have hr := ih (n + 1) c1
    rcases hbg : buildGroups ps (n + 1) c1 with ⟨rest, c2⟩
    rw [hbg] at hr
    simp only at hp hr
    simp [List.length_append, hp, hr]
    omega

theorem countGroups_buildGroups (v : List Product) : ∀ (n c : Nat),
    countGroups (buildGroups v n c).fst = v.length := by
  induction v with
  | nil => intro n c; simp [buildGroups, countGroups_nil]
  | cons p ps ih =>
    intro n c
    have hp := countGroups_productGroup p n c
    simp only [buildGroups]
    rcases hpg : productGroup p n c with ⟨grp, c1⟩
    rw [hpg] at hp
    have hr := ih (n + 1) c1
    rcases hbg : buildGroups ps (n + 1) c1 with ⟨rest, c2⟩
    rw [hbg] at hr
    simp only at hp hr
    simp [countGroups_append, hp, hr]
    omega

theorem statLIN_buildGroups (v : List Product) : ∀ (n c : Nat),
    product_lines_stat (buildGroups v n c).fst = 0 := by
  induction v with
  | nil => intro n c; simp [buildGroups, stat_nil]
  | cons p ps ih =>
    intro n c
    have hp := statLIN_productGroup p n c
    simp only [buildGroups]
    rcases hpg : productGroup p n c with ⟨grp, c1⟩
    rw [hpg] at hp
    have hr := ih (n + 1) c1
    rcases hbg : buildGroups ps (n + 1) c1 with ⟨rest, c2⟩
    rw [hbg] at hr
    simp only at hp hr
    simp [stat_append, hp, hr]

theorem streamFold (ps : List Product) : ∀ (segs errs : List Str) (c k : Nat),
    ps.foldl streamStep (segs, errs, c, k) =
      (segs ++ (buildGroups (ps.filter accepted) (k + 1) c).fst,
       errs ++ (validateAll ps).snd,
       (buildGroups (ps.filter accepted) (k + 1) c).snd,
       k + (ps.filter accepted).length) := by
  induction ps with
  | nil => intro segs errs c k; simp [buildGroups, validateAll]
  | cons p ps ih =>
    intro segs errs c k
    cases hc : validate_core p with
    | some e =>
      have hacc : accepted p = false := by simp [accepted, validate_product, hc]
      have hstep : streamStep (segs, errs, c, k) p = (segs, errs ++ [e], c, k) := by
        simp [streamStep, validate_product_of_core_some p e hc]
      simp only [List.foldl_cons, hstep, ih,
        List.filter_cons, hacc, validateAll, validate_product_of_core_some p e hc]
      simp [List.append_assoc]
    | none =>
      have hacc : accepted p = true := by simp [accepted, validate_product, hc]
      rcases hpg : productGroup p (k + 1) c with ⟨grp, c1⟩
      have hstep : streamStep (segs, errs, c, k) p = (segs ++ grp, errs, c1, k + 1) := by
        simp [streamStep, validate_product_of_core_none p hc, hpg]
      simp only [List.foldl_cons, hstep, ih,
        List.filter_cons, hacc, validateAll, validate_product_of_core_none p hc]
      simp only [buildGroups, hpg]
      rcases hbg : buildGroups (List.filter accepted ps) (k + 1 + 1) c1 with ⟨rest, c2⟩
      simp [List.append_assoc, List.length_cons]
      omega

theorem chunkListAux_foldl (m : Nat) : ∀ (fuel : Nat) (l : List Product),
    l.length ≤ fuel → ∀ (st : List Str × List Str × Nat × Nat),
    (chunkListAux m fuel l).foldl (fun s chunk => chunk.foldl streamStep s) st =
      l.foldl streamStep st := by
  intro fuel
  induction fuel with
  | zero =>
    intro l hl st
    cases l with
    | nil => simp [chunkListAux]
    | cons p ps => simp at hl
  | succ n ih =>
    intro l hl st
    cases l with
    | nil => simp [chunkListAux]
    | cons p ps =>
      rw [chunkListAux]
      simp only [List.foldl_cons]
      rw [ih ((p :: ps).drop (m + 1))
        (by simp only [List.length_drop, List.length_cons] at hl ⊢; omega)]
      rw [← List.foldl_append, List.take_append_drop]
      exact rfl

theorem chunkList_foldl (m : Nat) (l : List Product)
    (st : List Str × List Str × Nat × Nat) :
    (chunkList m l).foldl (fun s chunk => chunk.foldl streamStep s) st =
      l.foldl streamStep st :=
  chunkListAux_foldl m l.length l (le_refl _) st

theorem streamingCore_shape (g : GenParams) (ps : List Product) :
    streamingCore g ps =
      ⟨true,
       (headerPhase g 0).fst ++
         (buildGroups (ps.filter accepted) 1 (headerPhase g 0).snd.snd).fst ++
         [(build_unt g.ctx
             (buildGroups (ps.filter accepted) 1 (headerPhase g 0).snd.snd).snd).fst,
          (build_unz g.ctx 0).fst],
       (headerPhase g 0).snd.fst ++ (validateAll ps).snd⟩ := by
  simp only [streamingCore]
  rcases hh : headerPhase g 0 with ⟨hs, herrs, ch⟩
  rw [chunkList_foldl 999 ps]
  rw [streamFold]
  simp [build_unt, build_unz, format_segment]

theorem bufferedCore_shape (g : GenParams) (ps : List Product)
    (hv : ps.filter accepted ≠ []) :
    bufferedCore g ps =
      ⟨true,
       (headerPhase g 0).fst ++
         (buildGroups (ps.filter accepted) 1 (headerPhase g 0).snd.snd).fst ++
         [(build_unt g.ctx
             (buildGroups (ps.filter accepted) 1 (headerPhase g 0).snd.snd).snd).fst,
          (build_unz g.ctx 0).fst],
       (validateAll ps).snd ++ (headerPhase g 0).snd.fst⟩ := by
  simp only [bufferedCore]
  rcases hva : validateAll ps with ⟨valid, verrs⟩
  have hfst : valid = ps.filter accepted := by
    have := validateAll_fst ps
    rw [hva] at this
    exact this
  have hne : valid.isEmpty = false := by
    rw [hfst]
    cases hfe : (ps.filter accepted).isEmpty
    · rfl
    · exact absurd (List.isEmpty_iff.mp hfe) hv
  have hsnd : verrs = (validateAll ps).snd := by rw [hva]
  rcases hh : headerPhase g 0 with ⟨hs, herrs, ch⟩
  simp [hne, hfst, hsnd, build_unt, build_unz, format_segment]
  simpa using hv

theorem create_shape (g : GenParams) (ps : List Product) (flag : Bool)
    (hv : ps.filter accepted ≠ []) :
    (create_prodcat_file g ps flag).ok = true ∧
    (create_prodcat_file g ps flag).written =
      (headerPhase g 0).fst ++
        (buildGroups (ps.filter accepted) 1 (headerPhase g 0).snd.snd).fst ++
        [(build_unt g.ctx
            (buildGroups (ps.filter accepted) 1 (headerPhase g 0).snd.snd).snd).fst,
         (build_unz g.ctx 0).fst] := by
  have hne : ps ≠ [] := by
    intro h
    rw [h] at hv
    simp at hv
  have hpe : ps.isEmpty = false := by
    cases ps with
    | nil => exact absurd rfl hne
    | cons q qs => rfl
  cases hdisp : (flag || decide (ps.length > 1000)) with
  | true =>
    simp only [create_prodcat_file, hpe, hdisp, Bool.false_eq_true, if_false, if_true,
      streamingCore_shape g ps]
    exact ⟨trivial, trivial⟩
  | false =>
    simp only [create_prodcat_file, hpe, hdisp, Bool.false_eq_true, if_false,
      bufferedCore_shape g ps hv]
    exact ⟨trivial, trivial⟩

theorem headerPhase_valid (g : GenParams) (c0 : Nat)
    (hd : validate_date_format g.docDate "102".data = true) :
    headerPhase g c0 =
      ([(build_unb g.ctx g.prep 0).fst, (build_unh g.ctx 0).fst,
        (build_bgm g.docNumber 0).fst,
        build_dtm_seg g.docDate,
        (build_nad "BY".data g.ctx.receiver
          (some (nameOr g.receiverName "Buyer Company Name".data)) 0).fst,
        (build_nad "SU".data g.ctx.sender
          (some (nameOr g.senderName "Supplier Company Name".data)) 0).fst],
       [], c0 + 6) := by
  simp [headerPhase, build_dtm, build_dtm_seg, hd, build_unb, build_unh, build_bgm,
    build_nad, format_segment]

theorem create_errors_valid_date (g : GenParams) (ps : List Product) (flag : Bool)
    (hv : ps.filter accepted ≠ [])
    (hd : validate_date_format g.docDate "102".data = true) :
    (create_prodcat_file g ps flag).errors = (validateAll ps).snd := by
  have hne : ps ≠ [] := by
    intro h
    rw [h] at hv
    simp at hv
  have hpe : ps.isEmpty = false := by
    cases ps with
    | nil => exact absurd rfl hne
    | cons q qs => rfl
  have hherrs : (headerPhase g 0).snd.fst = [] := by
    rw [headerPhase_valid g 0 hd]
  cases hdisp : (flag || decide (ps.length > 1000)) with
  | true =>
    simp only [create_prodcat_file, hpe, hdisp, Bool.false_eq_true, if_false, if_true,
      streamingCore_shape g ps, hherrs]
    simp
  | false =>
    simp only [create_prodcat_file, hpe, hdisp, Bool.false_eq_true, if_false,
      bufferedCore_shape g ps hv, hherrs]
    simp

theorem isLinHdr_build_unb (ctx : Ctx) (prep : Str) (c : Nat) :
    isLinHdr (build_unb ctx prep c).fst = false := isLinHdr_unb _

theorem isLinHdr_build_unh (ctx : Ctx) (c : Nat) :
    isLinHdr (build_unh ctx c).fst = false := isLinHdr_unh _

theorem isLinHdr_build_bgm (d : Str) (c : Nat) :
    isLinHdr (build_bgm d c).fst = false := isLinHdr_bgm _

theorem isLinHdr_build_dtm_seg (d : Str) :
    isLinHdr (build_dtm_seg d) = false := isLinHdr_dtm _

theorem isLinHdr_build_nad (q pid : Str) (name : Option Str) (c : Nat) :
    isLinHdr (build_nad q pid name c).fst = false := isLinHdr_nad _

theorem isLinHdr_build_unt (ctx : Ctx) (c : Nat) :
    isLinHdr (build_unt ctx c).fst = false := isLinHdr_unt _

theorem isLinHdr_build_unz (ctx : Ctx) (c : Nat) :
    isLinHdr (build_unz ctx c).fst = false := isLinHdr_unz _

theorem startsLIN_build_unb (ctx : Ctx) (prep : Str) (c : Nat) :
    isLinTag (build_unb ctx prep c).fst = false := startsLIN_unb _

theorem startsLIN_build_unh (ctx : Ctx) (c : Nat) :
    isLinTag (build_unh ctx c).fst = false := startsLIN_unh _

theorem startsLIN_build_bgm (d : Str) (c : Nat) :
    isLinTag (build_bgm d c).fst = false := startsLIN_bgm _

theorem startsLIN_build_dtm_seg (d : Str) :
    isLinTag (build_dtm_seg d) = false := startsLIN_dtm _

theorem startsLIN_build_nad (q pid : Str) (name : Option Str) (c : Nat) :
    isLinTag (build_nad q pid name c).fst = false := startsLIN_nad _

theorem startsLIN_build_unt (ctx : Ctx) (c : Nat) :
    isLinTag (build_unt ctx c).fst = false := startsLIN_unt _

theorem startsLIN_build_unz (ctx : Ctx) (c : Nat) :
    isLinTag (build_unz ctx c).fst = false := startsLIN_unz _

theorem headerPhase_invalid (g : GenParams) (c0 : Nat)
    (hd : validate_date_format g.docDate "102".data = false) :
    headerPhase g c0 =
      ([(build_unb g.ctx g.prep 0).fst, (build_unh g.ctx 0).fst,
        (build_bgm g.docNumber 0).fst,
        (build_nad "BY".data g.ctx.receiver
          (some (nameOr g.receiverName "Buyer Company Name".data)) 0).fst,
        (build_nad "SU".data g.ctx.sender
          (some (nameOr g.senderName "Supplier Company Name".data)) 0).fst],
       [dtmErrMsg g.docDate], c0 + 3 - 1 + 2) := by
  simp [headerPhase, build_dtm, hd, build_unb, build_unh, build_bgm,
    build_nad, format_segment]

theorem countGroups_headerPhase (g : GenParams) (c0 : Nat) :
    countGroups (headerPhase g c0).fst = 0 := by
  cases hd : validate_date_format g.docDate "102".data with
  | true =>
    rw [headerPhase_valid g c0 hd]
    simp only [countGroups_cons, countGroups_nil, isLinHdr_build_unb,
      isLinHdr_build_unh, isLinHdr_build_bgm, isLinHdr_build_dtm_seg,
      isLinHdr_build_nad]
    simp
  | false =>
    rw [headerPhase_invalid g c0 hd]
    simp only [countGroups_cons, countGroups_nil, isLinHdr_build_unb,
      isLinHdr_build_unh, isLinHdr_build_bgm, isLinHdr_build_nad]
    simp

theorem statLIN_headerPhase (g : GenParams) (c0 : Nat) :
    product_lines_stat (headerPhase g c0).fst = 0 := by
  cases hd : validate_date_format g.docDate "102".data with
  | true =>
    rw [headerPhase_valid g c0 hd]
    simp only [stat_cons, stat_nil, startsLIN_build_unb,
      startsLIN_build_unh, startsLIN_build_bgm, startsLIN_build_dtm_seg,
      startsLIN_build_nad]
    simp
  | false =>
    rw [headerPhase_invalid g c0 hd]
    simp only [stat_cons, stat_nil, startsLIN_build_unb,
      startsLIN_build_unh, startsLIN_build_bgm, startsLIN_build_nad]
    simp

theorem bufferedCore_allreject (g : GenParams) (ps : List Product)
    (hv : ps.filter accepted = []) :
    bufferedCore g ps =
      ⟨false, [], (validateAll ps).snd ++ ["No valid products to process".data]⟩ := by
  simp only [bufferedCore]
  rcases hva : validateAll ps with ⟨valid, verrs⟩
  have hfst : valid = [] := by
    have := validateAll_fst ps
    rw [hva] at this
    simp only at this
    rw [this, hv]
  have hsnd : verrs = (validateAll ps).snd := by rw [hva]
  rw [hfst, hsnd]
  simp

theorem unescape_escape_single_pass (s : Str) :
    unescape (escape_single_pass s) = s := by
  induction s with
  | nil => rfl
  | cons c rest ih =>
    have hstep : escape_single_pass (c :: rest) =
        (if c ∈ delimiterList then [escapeChar, c] else [c]) ++
          escape_single_pass rest := by
      simp [escape_single_pass]
    rw [hstep]
    by_cases h : c ∈ delimiterList
    · rw [if_pos h]
      show unescape (escapeChar :: c :: escape_single_pass rest) = c :: rest
      rw [unescape.eq_def]
      simp [ih]
    · rw [if_neg h]
      have hc : ¬(c = escapeChar) := fun he => h (he ▸ (by decide : escapeChar ∈ delimiterList))
      show unescape (c :: escape_single_pass rest) = c :: rest
      rw [unescape.eq_def]
      simp [hc, ih]

/-- C1: the repository's `_escape_data` is five sequential global
substitutions, not the single left-to-right pass the claim describes: on
the input `:` it first produces `?:` and then the later pass over the
release character re-escapes the inserted release character, yielding
`??:`, which the standard unescape reads back as `?:` rather than `:`;
the single-pass escaper the spec mandates yields `?:`, which unescapes
correctly. -/
theorem c1_escape_double_escapes :
    escape_data ":".data = "??:".data ∧
    unescape (escape_data ":".data) = "?:".data ∧
    "?:".data ≠ ":".data ∧
    escape_single_pass ":".data = "?:".data ∧
    unescape (escape_single_pass ":".data) = ":".data := by
  decide

/-- C3 counterexample: an absent (`None`) sub-Scalar inside a Composite
does NOT contribute an empty component position: the encoder drops it
and the later components shift left, so the party-identification
composite `[X, None, None, None, 9]` renders as `X:9`, not `X::::9`. -/
theorem c3_composite_shift_counterexample :
    renderSegment "NAD".data
        [.scalar "BY".data,
         .composite [some "X".data, none, none, none, some "9".data]] =
      "NAD+BY+X:9\x27".data ∧
    "NAD+BY+X:9\x27".data ≠ "NAD+BY+X::::9\x27".data := by
  decide

/-- C3 (amended): an absent (`None`) sub-Scalar inside a Composite is
removed before joining, so rendering a segment whose Composite contains
a `None` equals rendering it with the `None` deleted (later components
shift left into its place). -/
theorem c3_absent_subscalar_dropped (tag : Str) (pre post : List Element)
    (cs1 cs2 : List (Option Str)) :
    renderSegment tag (pre ++ [.composite (cs1 ++ none :: cs2)] ++ post) =
      renderSegment tag (pre ++ [.composite (cs1 ++ cs2)] ++ post) := by
  have he : renderElement (.composite (cs1 ++ none :: cs2)) =
      renderElement (.composite (cs1 ++ cs2)) := by
    simp only [renderElement, List.filterMap_append]
    rfl
  simp [renderSegment, List.map_append, he]

theorem renderSegment_append_blank (tag : Str) (elems : List Element)
    (e : Element) (he : renderElement e = []) :
    renderSegment tag (elems ++ [e]) = renderSegment tag elems := by
  simp [renderSegment, trimSegmentParts, List.map_append, he, List.dropWhile]

/-- C7 counterexample: the trailing-empty trimming does NOT act inside a
Composite: the Composite `["A", "", "B", ""]` renders all four component
positions, `A::B:`, keeping the final empty one, and `["A", "", ""]`
renders `A::` rather than only `A`. -/
theorem c7_composite_trailing_kept_counterexample :
    renderElement (.composite [some "A".data, some [], some "B".data, some []]) =
      "A::B:".data ∧
    "A::B:".data ≠ "A::B".data ∧
    renderElement (.composite [some "A".data, some [], some []]) = "A::".data ∧
    "A::".data ≠ "A".data := by
  decide

/-- C7 (amended): trailing-empty trimming happens at the segment's
top-level element positions, not inside a Composite: appending an
empty-rendering element (empty Scalar or absent element) to a segment's
element list never changes the rendered segment, the element list
`["A", "", "B", ""]` renders as `TAG+A++B` with its final empty element
dropped and its interior one kept, `["A", "", ""]` renders as `TAG+A`,
while a Composite `["A", "", "B", ""]` keeps its trailing empty
component position (`A::B:`). -/
theorem c7_element_trailing_trim :
    (∀ (tag : Str) (elems : List Element),
      renderSegment tag (elems ++ [.scalar []]) = renderSegment tag elems) ∧
    (∀ (tag : Str) (elems : List Element),
      renderSegment tag (elems ++ [.absent]) = renderSegment tag elems) ∧
    renderSegment "TAG".data
        [.scalar "A".data, .scalar [], .scalar "B".data, .scalar []] =
      "TAG+A++B\x27".data ∧
    renderSegment "TAG".data [.scalar "A".data, .scalar [], .scalar []] =
      "TAG+A\x27".data ∧
    renderElement (.composite [some "A".data, some [], some "B".data, some []]) =
      "A::B:".data := by
  refine ⟨?_, ?_, by decide, by decide, by decide⟩
  · intro tag elems
    exact renderSegment_append_blank tag elems _ rfl
  · intro tag elems
    exact renderSegment_append_blank tag elems _ rfl

/-- C9: sender and receiver identifiers are normalized (stripped,
uppercased) and checked against the identifier grammar at context
construction: a violating SENDER makes construction fail, a violating
RECEIVER makes construction fail (in either case no context exists, so
no record processing or output is possible), and a successful
construction stores the normalized forms of both identifiers. -/
theorem c9_id_validation (s r m i : Str) :
    (idOk (sanitize_value s true) = false → construct s r m i = none) ∧
    (idOk (sanitize_value r true) = false → construct s r m i = none) ∧
    (∀ ctx : Ctx, construct s r m i = some ctx →
      ctx.sender = sanitize_value s true ∧ ctx.receiver = sanitize_value r true) := by
  refine ⟨?_, ?_, ?_⟩
  · intro h
    simp [construct, validate_id, h]
  · intro h
    by_cases hs : idOk (sanitize_value s true) = true
    · simp [construct, validate_id, hs, h]
    · simp [construct, validate_id, hs]
  · intro ctx hc
    simp only [construct, validate_id] at hc
    by_cases hs : idOk (sanitize_value s true) = true
    · by_cases hr : idOk (sanitize_value r true) = true
      · simp only [hs, if_true, hr] at hc
        cases hc
        exact ⟨rfl, rfl⟩
      · simp only [hs, if_true] at hc
        rw [if_neg hr] at hc
        cases hc
    · rw [if_neg hs] at hc
      cases hc

/-- C9 witness: the sender `"bad id!"` is rejected at construction, the
receiver `"bad id!"` is rejected even with a valid sender, and a
well-formed pair is stored normalized. -/
theorem c9_id_validation_witness :
    construct "bad id!".data "B-2".data "M1".data "I1".data = none ∧
    construct "A.1".data "bad id!".data "M1".data "I1".data = none ∧
    ((⟨"A.1".data, "B-2".data, "M1".data, "I1".data⟩ : Ctx).sender =
        sanitize_value "A.1".data true ∧
      (⟨"A.1".data, "B-2".data, "M1".data, "I1".data⟩ : Ctx).receiver =
        sanitize_value "B-2".data true) :=
  ⟨(c9_id_validation "bad id!".data "B-2".data "M1".data "I1".data).1 (by decide),
   (c9_id_validation "A.1".data "bad id!".data "M1".data "I1".data).2.1 (by decide),
   (c9_id_validation "A.1".data "B-2".data "M1".data "I1".data).2.2
     ⟨"A.1".data, "B-2".data, "M1".data, "I1".data⟩ (by decide)⟩

/-- C4: on a batch whose every record fails validation, the BUFFERED mode
fails with the empty-input error and writes nothing — but the STREAMING
mode (`use_streaming=True`, and likewise the forced-streaming dispatch
for more than 1000 records) has no such check: it reports success and
writes an envelope-only file (headers and trailers, no line items).
The last conjunct shows the streaming mode never fails, whatever the
records. -/
theorem c4_streaming_emits_on_all_reject :
    (create_prodcat_file g0 [badCur] false).ok = false ∧
    (create_prodcat_file g0 [badCur] false).written = [] ∧
    (create_prodcat_file g0 [badCur] false).errors =
      ["Invalid currency: XXX".data, "No valid products to process".data] ∧
    (create_prodcat_file g0 [badCur] true).ok = true ∧
    (create_prodcat_file g0 [badCur] true).written.length = 8 ∧
    (create_prodcat_file g0 [badCur] true).errors = ["Invalid currency: XXX".data] ∧
    (∀ (g : GenParams) (ps : List Product), (streamingCore g ps).ok = true) := by
  refine ⟨by decide, by decide, by decide, by decide, by decide, by decide, ?_⟩
  intro g ps
  rw [streamingCore_shape]

/-- C5 counterexample: with a single record that fails validation, the
buffered mode writes nothing and fails while the streaming mode succeeds
and writes eight segments, so the two modes do not produce identical
segment sequences for every record list. -/
theorem c5_modes_differ_counterexample :
    (create_prodcat_file g0 [noDesc] false).written = [] ∧
    (create_prodcat_file g0 [noDesc] true).written.length = 8 ∧
    (create_prodcat_file g0 [noDesc] false).written ≠
      (create_prodcat_file g0 [noDesc] true).written ∧
    (create_prodcat_file g0 [noDesc] false).ok = false ∧
    (create_prodcat_file g0 [noDesc] true).ok = true := by
  decide

/-- C5 (amended): whenever at least one record passes validation, the
buffered and the streaming emission modes return the same success flag
and write byte-identical segment sequences (same segments, same
content, same order); when every record is rejected the modes diverge
as the counterexample shows. -/
theorem c5_modes_equal_when_some_accepted (g : GenParams) (ps : List Product)
    (hv : ps.filter accepted ≠ []) :
    (create_prodcat_file g ps false).written =
      (create_prodcat_file g ps true).written ∧
    (create_prodcat_file g ps false).ok = (create_prodcat_file g ps true).ok := by
  have h1 := create_shape g ps false hv
  have h2 := create_shape g ps true hv
  exact ⟨h1.2.trans h2.2.symm, h1.1.trans h2.1.symm⟩

/-- C5 witness: on the concrete one-record scenario both modes produce the
same output. -/
theorem c5_modes_equal_witness :
    [widget].filter accepted ≠ [] ∧
    ((create_prodcat_file g0 [widget] false).written =
        (create_prodcat_file g0 [widget] true).written ∧
      (create_prodcat_file g0 [widget] false).ok =
        (create_prodcat_file g0 [widget] true).ok) :=
  ⟨by decide, c5_modes_equal_when_some_accepted g0 [widget] (by decide)⟩

/-- C2 counterexample: in the concrete one-record run, the segments
between (and including) the message header `UNH` and the trailer `UNT`
number 10, but the trailer's declared count field is `11` — the running
counter also counted the interchange header `UNB`, so the declared
count is one more than the claim's span. -/
theorem c2_unt_count_counterexample :
    ((create_prodcat_file g0 [widget] false).written.drop 1).dropLast.length = 10 ∧
    ((create_prodcat_file g0 [widget] false).written)[10]? =
      some (renderSegment "UNT".data [.scalar (natToStr 11), .scalar "MSG1".data]) ∧
    renderSegment "UNT".data [.scalar (natToStr 11), .scalar "MSG1".data] ≠
      renderSegment "UNT".data [.scalar (natToStr 10), .scalar "MSG1".data] := by
  decide

/-- C2 (amended): in every generation run (either mode) with at least one
accepted record and a valid document date, the message-trailer segment
declares a count equal to the number of segments between (and
including) the message header and the trailer itself PLUS ONE, because
the running counter also counts the interchange header: the trailer
sits two segments from the end, and its declared count field is the
length of the written sequence without its first and last segments,
plus one. -/
theorem c2_unt_declared_count (g : GenParams) (ps : List Product) (flag : Bool)
    (hv : ps.filter accepted ≠ [])
    (hd : validate_date_format g.docDate "102".data = true) :
    ((create_prodcat_file g ps flag).written)[(create_prodcat_file g ps flag).written.length - 2]? =
      some (renderSegment "UNT".data
        [.scalar (natToStr
          ((((create_prodcat_file g ps flag).written.drop 1).dropLast).length + 1)),
         .scalar g.ctx.message_ref]) := by
  have hsh := (create_shape g ps flag hv).2
  rw [headerPhase_valid g 0 hd] at hsh
  simp only [Nat.zero_add] at hsh
  rcases hbg : buildGroups (ps.filter accepted) 1 6 with ⟨GS, cnt⟩
  rw [hbg] at hsh
  have hcnt : cnt = 6 + GS.length := by
    have h2 := buildGroups_snd (ps.filter accepted) 1 6
    rw [hbg] at h2
    simpa using h2
  rw [hsh]
  rw [show ((([(build_unb g.ctx g.prep 0).fst, (build_unh g.ctx 0).fst,
        (build_bgm g.docNumber 0).fst,
        build_dtm_seg g.docDate,
        (build_nad "BY".data g.ctx.receiver
          (some (nameOr g.receiverName "Buyer Company Name".data)) 0).fst,
        (build_nad "SU".data g.ctx.sender
          (some (nameOr g.senderName "Supplier Company Name".data)) 0).fst] ++ GS) ++
      [(build_unt g.ctx cnt).fst, (build_unz g.ctx 0).fst]).length - 2 : Nat) =
      ([(build_unb g.ctx g.prep 0).fst, (build_unh g.ctx 0).fst,
        (build_bgm g.docNumber 0).fst,
        build_dtm_seg g.docDate,
        (build_nad "BY".data g.ctx.receiver
          (some (nameOr g.receiverName "Buyer Company Name".data)) 0).fst,
        (build_nad "SU".data g.ctx.sender
          (some (nameOr g.senderName "Supplier Company Name".data)) 0).fst] ++ GS).length
    by simp]
  rw [List.getElem?_append_right (le_refl _)]
  simp [build_unt, format_segment, hcnt]
  rw [show (6 + GS.length + 1 : Nat) = GS.length + 2 + 1 + 1 + 1 + 1 + 1 by omega]

/-- C2 witness: the amended statement holds on the concrete one-record
run. -/
theorem c2_unt_declared_count_witness :
    ((create_prodcat_file g0 [widget] false).written)[(create_prodcat_file g0 [widget] false).written.length - 2]? =
      some (renderSegment "UNT".data
        [.scalar (natToStr
          ((((create_prodcat_file g0 [widget] false).written.drop 1).dropLast).length + 1)),
         .scalar g0.ctx.message_ref]) :=
  c2_unt_declared_count g0 [widget] false (by decide) (by decide)

/-- C6 counterexample: in version1, a batch of two records of which the
second fails validation (M = 2, K = 1 < M) does NOT succeed: the first
invalid record aborts the whole run with failure, no output, and two
error entries rather than one. -/
theorem c6_v1_aborts_counterexample :
    (create_prodcat_file_v1 g0 [widget, noDesc]).ok = false ∧
    (create_prodcat_file_v1 g0 [widget, noDesc]).written = [] ∧
    (create_prodcat_file_v1 g0 [widget, noDesc]).errors =
      ["Product missing required fields: description".data,
       "Validation failed for product 2".data] := by
  decide

/-- C6 (amended, shown for version3): with at least one accepted record
and a valid document date, a version3 run (either mode) succeeds, its
output contains exactly one line-item group per surviving record — the
groups section is the survivors' groups in original relative order —
and its error list has exactly one entry per rejected record; version1,
by contrast, aborts on the first rejected record (see the
counterexample). -/
theorem c6_partial_batch_v3 (g : GenParams) (ps : List Product) (flag : Bool)
    (hv : ps.filter accepted ≠ [])
    (hd : validate_date_format g.docDate "102".data = true) :
    (create_prodcat_file g ps flag).ok = true ∧
    countGroups (create_prodcat_file g ps flag).written = (ps.filter accepted).length ∧
    (create_prodcat_file g ps flag).errors.length =
      ps.countP (fun q => !accepted q) ∧
    (create_prodcat_file g ps flag).written =
      (headerPhase g 0).fst ++
        (buildGroups (ps.filter accepted) 1 (headerPhase g 0).snd.snd).fst ++
        [(build_unt g.ctx
            (buildGroups (ps.filter accepted) 1 (headerPhase g 0).snd.snd).snd).fst,
         (build_unz g.ctx 0).fst] := by
  have hs := create_shape g ps flag hv
  refine ⟨hs.1, ?_, ?_, hs.2⟩
  · rw [hs.2, countGroups_append, countGroups_append, countGroups_headerPhase,
      countGroups_buildGroups]
    simp only [countGroups_cons, countGroups_nil, isLinHdr_build_unt,
      isLinHdr_build_unz]
    simp
  · rw [create_errors_valid_date g ps flag hv hd, validateAll_snd_length]

/-- C6 witness: a concrete batch of two records with one rejection
(M = 2, K = 1): the run succeeds with one line-item group and one error
entry. -/
theorem c6_partial_batch_v3_witness :
    ([widget, noDesc].filter accepted ≠ [] ∧
      validate_date_format g0.docDate "102".data = true) ∧
    ((create_prodcat_file g0 [widget, noDesc] false).ok = true ∧
      countGroups (create_prodcat_file g0 [widget, noDesc] false).written = 1 ∧
      (create_prodcat_file g0 [widget, noDesc] false).errors.length = 1) :=
  ⟨⟨by decide, by decide⟩,
   (c6_partial_batch_v3 g0 [widget, noDesc] false (by decide) (by decide)).1,
   (c6_partial_batch_v3 g0 [widget, noDesc] false (by decide) (by decide)).2.1,
   (c6_partial_batch_v3 g0 [widget, noDesc] false (by decide) (by decide)).2.2.1⟩

/-- C8: the concrete scenario — sender `A.1`, receiver `B-2`, one record
(Widget, 10, PCE, 5.00, USD), fixed clock — emits exactly the 12
segments listed (interchange header, message header, begin-of-message,
date, buyer and supplier party segments, line-item, description, price,
quantity, message trailer, interchange trailer, in that order), the
message-trailer declared count field is 11 and the interchange-trailer
message count is 1. -/
theorem c8_concrete_scenario :
    create_prodcat_file g0 [widget] false =
      ⟨true,
       ["UNB+UNOA:3+A??.1:ZZZ+B-2:ZZZ+240101??:1200+123456\x27".data,
        "UNH+MSG1+PRODCAT:D:01B:UN:UN\x27".data,
        "BGM+220+CAT1+9\x27".data,
        "DTM+137:20240101:102\x27".data,
        "NAD+BY+B-2:9+Buyer Company Name\x27".data,
        "NAD+SU+A??.1:9+Supplier Company Name\x27".data,
        "PRODUCT_HEADER+LIN+1+1+EN\x27".data,
        "PRODUCT_DESCRIPTION+IMD+F++++Widget\x27".data,
        "PRODUCT_PRICE+PRI+AAA+5??.00:CT:USD\x27".data,
        "PRODUCT_QUANTITY+QTY+12:10:PCE\x27".data,
        "UNT+11+MSG1\x27".data,
        "UNZ+1+123456\x27".data],
       []⟩ ∧
    (create_prodcat_file g0 [widget] false).written.length = 12 ∧
    ((create_prodcat_file g0 [widget] false).written)[10]? =
      some (renderSegment "UNT".data [.scalar (natToStr 11), .scalar "MSG1".data]) ∧
    ((create_prodcat_file g0 [widget] false).written)[11]? =
      some (renderSegment "UNZ".data [.scalar (natToStr 1), .scalar "123456".data]) := by
  refine ⟨by decide, by decide, by decide, by decide⟩

theorem statLIN_streamingCore (g : GenParams) (ps : List Product) :
    product_lines_stat (streamingCore g ps).written = 0 := by
  simp only [streamingCore_shape]
  rw [stat_append, stat_append, statLIN_headerPhase, statLIN_buildGroups]
  simp only [stat_cons, stat_nil, startsLIN_build_unt, startsLIN_build_unz]
  simp

theorem statLIN_bufferedCore (g : GenParams) (ps : List Product) :
    product_lines_stat (bufferedCore g ps).written = 0 := by
  by_cases hv : ps.filter accepted = []
  · simp only [bufferedCore_allreject g ps hv]
    exact stat_nil
  · simp only [bufferedCore_shape g ps hv]
    rw [stat_append, stat_append, statLIN_headerPhase, statLIN_buildGroups]
    simp only [stat_cons, stat_nil, startsLIN_build_unt, startsLIN_build_unz]
    simp


theorem splitNL_append_sep : ∀ (s R : Str), newlineChar ∉ s →
    splitNL (s ++ newlineChar :: R) = s :: splitNL R := by
  intro s
  induction s with
  | nil =>
    intro R _
    simp [splitNL]
  | cons c cs ih =>
    intro R hna
    have hc : ¬(c = newlineChar) := by
      intro he
      exact hna (by rw [he]; exact List.mem_cons_self _ _)
    have hcs : newlineChar ∉ cs := fun hm => hna (List.mem_cons_of_mem _ hm)
    rw [List.cons_append, splitNL.eq_def]
    simp only [if_neg hc]
    rw [ih R hcs]

theorem fileLines_clean : ∀ (segs : List Str), (∀ s ∈ segs, newlineChar ∉ s) →
    splitNL (fileContent segs) = segs ++ [[]] := by
  intro segs
  induction segs with
  | nil => intro _; simp [fileContent, splitNL]
  | cons s rest ih =>
    intro h
    have hstep : fileContent (s :: rest) = s ++ newlineChar :: fileContent rest := by
      simp [fileContent]
    rw [hstep, splitNL_append_sep s _ (h s (List.mem_cons_self _ _)),
      ih (fun q hq => h q (List.mem_cons_of_mem _ hq))]
    rfl

theorem map_stripStr_id : ∀ (l : List Str), (∀ s ∈ l, stripStr s = s) →
    l.map stripStr = l := by
  intro l
  induction l with
  | nil => intro _; rfl
  | cons a as ih =>
    intro h
    simp [h a (List.mem_cons_self _ _),
      ih (fun q hq => h q (List.mem_cons_of_mem _ hq))]

theorem verify_lines_clean (segs : List Str)
    (hnl : ∀ s ∈ segs, newlineChar ∉ s) (hwf : segsWF segs) :
    verify_lines (fileContent segs) = segs := by
  rw [verify_lines, fileLines_clean segs hnl, List.map_append,
    map_stripStr_id segs (fun s hs => (hwf s hs).1), List.filter_append]
  have hfil : segs.filter (fun l => !l.isEmpty) = segs := by
    apply List.filter_eq_self.mpr
    intro a ha
    have h2 := (hwf a ha).2
    cases a with
    | nil => exact absurd rfl h2
    | cons x xs => rfl
  rw [hfil]
  simp [stripStr]

theorem stripStr_sandwich (c d : Char) (l : Str)
    (hc : c.isWhitespace = false) (hd : d.isWhitespace = false) :
    stripStr (c :: (l ++ [d])) = c :: (l ++ [d]) := by
  have h1 : (c :: (l ++ [d])).dropWhile Char.isWhitespace = c :: (l ++ [d]) := by
    simp [List.dropWhile_cons, hc]
  rw [stripStr, h1]
  have h2 : (c :: (l ++ [d])).reverse = d :: (l.reverse ++ [c]) := by
    simp
  rw [h2]
  have h3 : (d :: (l.reverse ++ [c])).dropWhile Char.isWhitespace =
      d :: (l.reverse ++ [c]) := by
    simp [List.dropWhile_cons, hd]
  rw [h3, ← h2, List.reverse_reverse]

theorem renderSegment_wf (a : Char) (t : Str) (elems : List Element)
    (ha : a.isWhitespace = false) :
    stripStr (renderSegment (a :: t) elems) = renderSegment (a :: t) elems ∧
    renderSegment (a :: t) elems ≠ [] := by
  have hshape : renderSegment (a :: t) elems =
      a :: ((t ++ ((elems.map renderElement).reverse.dropWhile
          (fun p => p.isEmpty)).reverse.flatMap (fun q => dataDelim :: q)) ++
        [terminatorChar]) := by
    rw [renderSegment_decomp, segTail, List.cons_append, List.append_assoc]
  constructor
  · rw [hshape]
    exact stripStr_sandwich a terminatorChar _ ha (by decide)
  · rw [hshape]
    exact List.cons_ne_nil _ _

theorem segsWF_nil : segsWF [] := by
  intro s hs
  cases hs

theorem segsWF_cons (s : Str) (l : List Str)
    (hs : stripStr s = s ∧ s ≠ []) (hl : segsWF l) : segsWF (s :: l) := by
  intro q hq
  rcases List.mem_cons.mp hq with rfl | hm
  · exact hs
  · exact hl q hm

theorem segsWF_append (a b : List Str) (ha : segsWF a) (hb : segsWF b) :
    segsWF (a ++ b) := by
  intro q hq
  rcases List.mem_append.mp hq with hm | hm
  · exact ha q hm
  · exact hb q hm

theorem wf_build_unb (ctx : Ctx) (prep : Str) (c : Nat) :
    stripStr (build_unb ctx prep c).fst = (build_unb ctx prep c).fst ∧
    (build_unb ctx prep c).fst ≠ [] :=
  renderSegment_wf 'U' "NB".data _ (by decide)

theorem wf_build_unh (ctx : Ctx) (c : Nat) :
    stripStr (build_unh ctx c).fst = (build_unh ctx c).fst ∧
    (build_unh ctx c).fst ≠ [] :=
  renderSegment_wf 'U' "NH".data _ (by decide)

theorem wf_build_bgm (d : Str) (c : Nat) :
    stripStr (build_bgm d c).fst = (build_bgm d c).fst ∧
    (build_bgm d c).fst ≠ [] :=
  renderSegment_wf 'B' "GM".data _ (by decide)

theorem wf_build_dtm_seg (d : Str) :
    stripStr (build_dtm_seg d) = build_dtm_seg d ∧ build_dtm_seg d ≠ [] :=
  renderSegment_wf 'D' "TM".data _ (by decide)

theorem wf_build_nad (q pid : Str) (name : Option Str) (c : Nat) :
    stripStr (build_nad q pid name c).fst = (build_nad q pid name c).fst ∧
    (build_nad q pid name c).fst ≠ [] :=
  renderSegment_wf 'N' "AD".data _ (by decide)

theorem wf_build_unt (ctx : Ctx) (c : Nat) :
    stripStr (build_unt ctx c).fst = (build_unt ctx c).fst ∧
    (build_unt ctx c).fst ≠ [] :=
  renderSegment_wf 'U' "NT".data _ (by decide)

theorem wf_build_unz (ctx : Ctx) (c : Nat) :
    stripStr (build_unz ctx c).fst = (build_unz ctx c).fst ∧
    (build_unz ctx c).fst ≠ [] :=
  renderSegment_wf 'U' "NZ".data _ (by decide)

theorem wf_build_lin (n c : Nat) :
    stripStr (build_lin n c).fst = (build_lin n c).fst ∧
    (build_lin n c).fst ≠ [] := by
  rw [build_lin_eq]
  exact renderSegment_wf 'P' "RODUCT_HEADER".data _ (by decide)

theorem wf_build_pia (a b : Str) (c : Nat) :
    stripStr (build_pia a b c).fst = (build_pia a b c).fst ∧
    (build_pia a b c).fst ≠ [] := by
  rw [build_pia_eq]
  exact renderSegment_wf 'P' "RODUCT_ID".data _ (by decide)

theorem wf_build_imd (a : Str) (c : Nat) :
    stripStr (build_imd a c).fst = (build_imd a c).fst ∧
    (build_imd a c).fst ≠ [] := by
  rw [build_imd_eq]
  exact renderSegment_wf 'P' "RODUCT_DESCRIPTION".data _ (by decide)

theorem wf_build_pri (a b : Str) (c : Nat) :
    stripStr (build_pri a b c).fst = (build_pri a b c).fst ∧
    (build_pri a b c).fst ≠ [] := by
  rw [build_pri_eq]
  exact renderSegment_wf 'P' "RODUCT_PRICE".data _ (by decide)

theorem wf_build_qty (a b : Str) (c : Nat) :
    stripStr (build_qty a b c).fst = (build_qty a b c).fst ∧
    (build_qty a b c).fst ≠ [] := by
  rw [build_qty_eq]
  exact renderSegment_wf 'P' "RODUCT_QUANTITY".data _ (by decide)

theorem wf_build_rff (a b : Str) (c : Nat) :
    stripStr (build_rff a b c).fst = (build_rff a b c).fst ∧
    (build_rff a b c).fst ≠ [] := by
  rw [build_rff_eq]
  exact renderSegment_wf 'P' "RODUCT_REFERENCE".data _ (by decide)

theorem wf_productGroup (p : Product) (n c : Nat) :
    segsWF (productGroup p n c).fst := by
  rw [productGroup_fst]
  refine segsWF_append _ _ (segsWF_append _ _ (segsWF_append _ _
    (segsWF_append _ _ ?_ ?_) ?_) ?_) ?_
  · exact segsWF_cons _ _ (wf_build_lin n 0) segsWF_nil
  · split
    · exact segsWF_cons _ _ (wf_build_pia _ _ 0) segsWF_nil
    · exact segsWF_nil
  · split
    · exact segsWF_cons _ _ (wf_build_pia _ _ 0) segsWF_nil
    · exact segsWF_nil
  · exact segsWF_cons _ _ (wf_build_imd _ 0)
      (segsWF_cons _ _ (wf_build_pri _ _ 0)
        (segsWF_cons _ _ (wf_build_qty _ _ 0) segsWF_nil))
  · split
    · exact segsWF_cons _ _ (wf_build_rff _ _ 0) segsWF_nil
    · exact segsWF_nil

theorem wf_buildGroups (v : List Product) : ∀ (n c : Nat),
    segsWF (buildGroups v n c).fst := by
  induction v with
  | nil => intro n c; exact segsWF_nil
  | cons p ps ih =>
    intro n c
    simp only [buildGroups]
    rcases hpg : productGroup p n c with ⟨grp, c1⟩
    have hg := wf_productGroup p n c
    rw [hpg] at hg
    rcases hbg : buildGroups ps (n + 1) c1 with ⟨rest, c2⟩
    have hr := ih (n + 1) c1
    rw [hbg] at hr
    exact segsWF_append _ _ hg hr

theorem wf_headerPhase (g : GenParams) (c0 : Nat) :
    segsWF (headerPhase g c0).fst := by
  cases hd : validate_date_format g.docDate "102".data with
  | true =>
    rw [headerPhase_valid g c0 hd]
    exact segsWF_cons _ _ (wf_build_unb _ _ 0)
      (segsWF_cons _ _ (wf_build_unh _ 0)
        (segsWF_cons _ _ (wf_build_bgm _ 0)
          (segsWF_cons _ _ (wf_build_dtm_seg _)
            (segsWF_cons _ _ (wf_build_nad _ _ _ 0)
              (segsWF_cons _ _ (wf_build_nad _ _ _ 0) segsWF_nil)))))
  | false =>
    rw [headerPhase_invalid g c0 hd]
    exact segsWF_cons _ _ (wf_build_unb _ _ 0)
      (segsWF_cons _ _ (wf_build_unh _ 0)
        (segsWF_cons _ _ (wf_build_bgm _ 0)
          (segsWF_cons _ _ (wf_build_nad _ _ _ 0)
            (segsWF_cons _ _ (wf_build_nad _ _ _ 0) segsWF_nil))))

theorem wf_streamingCore (g : GenParams) (ps : List Product) :
    segsWF (streamingCore g ps).written := by
  simp only [streamingCore_shape]
  exact segsWF_append _ _
    (segsWF_append _ _ (wf_headerPhase g 0) (wf_buildGroups _ 1 _))
    (segsWF_cons _ _ (wf_build_unt _ _)
      (segsWF_cons _ _ (wf_build_unz _ 0) segsWF_nil))

theorem wf_bufferedCore (g : GenParams) (ps : List Product) :
    segsWF (bufferedCore g ps).written := by
  by_cases hv : ps.filter accepted = []
  · simp only [bufferedCore_allreject g ps hv]
    exact segsWF_nil
  · simp only [bufferedCore_shape g ps hv]
    exact segsWF_append _ _
      (segsWF_append _ _ (wf_headerPhase g 0) (wf_buildGroups _ 1 _))
      (segsWF_cons _ _ (wf_build_unt _ _)
        (segsWF_cons _ _ (wf_build_unz _ 0) segsWF_nil))

theorem wf_create (g : GenParams) (ps : List Product) (flag : Bool) :
    segsWF (create_prodcat_file g ps flag).written := by
  by_cases hpe : ps.isEmpty = true
  · simp only [create_prodcat_file, hpe, if_true]
    exact segsWF_nil
  · have hpe' : ps.isEmpty = false := by
      cases hq : ps.isEmpty
      · rfl
      · exact absurd hq hpe
    cases hdisp : (flag || decide (ps.length > 1000)) with
    | true =>
      simp only [create_prodcat_file, hpe', hdisp, Bool.false_eq_true, if_false,
        if_true]
      exact wf_streamingCore g ps
    | false =>
      simp only [create_prodcat_file, hpe', hdisp, Bool.false_eq_true, if_false]
      exact wf_bufferedCore g ps

theorem statLIN_create (g : GenParams) (ps : List Product) (flag : Bool) :
    product_lines_stat (create_prodcat_file g ps flag).written = 0 := by
  by_cases hpe : ps.isEmpty = true
  · simp [create_prodcat_file, hpe, product_lines_stat]
  · have hpe' : ps.isEmpty = false := by
      cases hq : ps.isEmpty
      · rfl
      · exact absurd hq hpe
    cases hdisp : (flag || decide (ps.length > 1000)) with
    | true => simp [create_prodcat_file, hpe', hdisp, statLIN_streamingCore]
    | false => simp [create_prodcat_file, hpe', hdisp, statLIN_bufferedCore]

/-- C10 counterexample: the Verifier's statistic is computed by
re-splitting the re-read file on the line separator; the record
`nlDesc`, whose description `"W\nLIN"` passes version3 validation
(non-empty, ASCII) and is never escaped, puts a raw line separator into
the written description segment, and the verifier's split then yields a
line starting with `LIN` — the statistic on this version3-generated
message is 1, not 0. -/
theorem c10_newline_counterexample :
    accepted nlDesc = true ∧
    (create_prodcat_file g0 [nlDesc] false).ok = true ∧
    product_lines_file
        (fileContent (create_prodcat_file g0 [nlDesc] false).written) = 1 ∧
    (1 : Nat) ≠ 0 := by
  decide

/-- C10 (amended): every segment built through the version3 template
registry takes the UPPERCASED TEMPLATE KIND as its tag while the
literal EDIFACT tag stored as the template's first entry becomes the
first data element (shown for the line-item header: its first 19
characters are always `PRODUCT_HEADER+LIN+`); consequently no WRITTEN
SEGMENT of any version3 run starts with `LIN` (the per-segment count is
0 for every input, both modes), and the Verifier's file-level
`product_lines` statistic — computed by re-splitting the re-read file
content on the line separator, stripping and dropping blank lines — is
0 for every generated message none of whose segments contains a raw
line separator; when a validated field value embeds a line separator
before the text `LIN`, the statistic is nonzero (see the
counterexample). -/
theorem c10_template_tags :
    (∀ (g : GenParams) (ps : List Product) (flag : Bool),
      product_lines_stat (create_prodcat_file g ps flag).written = 0) ∧
    (∀ (g : GenParams) (ps : List Product) (flag : Bool),
      (∀ s ∈ (create_prodcat_file g ps flag).written, newlineChar ∉ s) →
      product_lines_file
        (fileContent (create_prodcat_file g ps flag).written) = 0) ∧
    (∀ (n c : Nat), (build_lin n c).fst.take 19 = "PRODUCT_HEADER+LIN+".data) := by
  refine ⟨statLIN_create, ?_, fun n c => rfl⟩
  intro g ps flag hnl
  rw [product_lines_file,
    verify_lines_clean (create_prodcat_file g ps flag).written hnl
      (wf_create g ps flag)]
  exact statLIN_create g ps flag

/-- C10 witness: on the concrete newline-free one-record run the
file-level verifier statistic is 0. -/
theorem c10_template_tags_witness :
    product_lines_file
        (fileContent (create_prodcat_file g0 [widget] false).written) = 0 :=
  c10_template_tags.2.1 g0 [widget] false (by decide)
